/-
Verification of the doc-factory QA harness (src/qa/*.py) against its
natural-language specification.

Conventions of the shallow embedding:
* Python `dict`-shaped JSON values are modelled by Lean structures whose
  fields follow the artifact schema (spec section 6): a field that the code
  reads with `.get` and may be absent is an `Option`; `isinstance` guards on
  values that the schema types as objects/lists are identities in this model.
* Python floats are modelled as rationals (`Rat`); `round(x, n)` is modelled
  by half-to-even rounding at `n` decimal digits, which is Python's rounding
  mode for floats.
* Python strings are Lean `String`s.  `str.lower`/`str.upper`/`str.strip` and
  friends are modelled by the `py*` helpers below, written over the character
  data lists (ASCII case folding; every string the harness case-folds before
  comparing is matched against ASCII markers).
* Stateful observations (HTTP responses, file contents, browser inspections)
  are inputs of the embedded functions; the file system is a map from a
  request hash to the state of the persisted artifact files, where a file is
  either missing, or present with a byte digest and a JSON parse outcome
  (`none` modelling `json.JSONDecodeError`).
* A `main` entry point is embedded as a pure function from its observations
  to the printed JSON report (an association list of top-level keys) together
  with the process exit status; a raised exception is an `Except.error`.
-/
import Mathlib

set_option autoImplicit false

namespace DocFactory

/-! ## String utilities shared by the verifiers

These mirror the Python string primitives the harness uses.  They are written
over `String.data` character lists (rather than the positional core-library
loops) so that every definition evaluates by kernel reduction. -/

/-- Python `str.lower` (the markers the harness compares against are ASCII). -/
def pyLower (s : String) : String := ⟨s.data.map Char.toLower⟩

/-- Python `str.upper`. -/
def pyUpper (s : String) : String := ⟨s.data.map Char.toUpper⟩

/-- Python `str.strip()`: drop leading and trailing whitespace. -/
def pyStrip (s : String) : String :=
  ⟨((s.data.dropWhile Char.isWhitespace).reverse.dropWhile
    Char.isWhitespace).reverse⟩

/-- Python `str.startswith(pat)`. -/
def pyStartsWith (s pat : String) : Bool :=
  List.isPrefixOf pat.data s.data

/-- Bool test that the character list `pat` occurs in `cs` starting at index `i`. -/
def substrAtL (pat : List Char) (cs : List Char) (i : Nat) : Bool :=
  (cs.drop i).take pat.length == pat

/-- Bool test that `pat` occurs somewhere in `cs` (Python `pat in s`). -/
def containsSubL (pat : List Char) (cs : List Char) : Bool :=
  (List.range (cs.length + 1)).any (substrAtL pat cs)

/-- Python substring containment `needle in hay`. -/
def strContains (hay needle : String) : Bool :=
  containsSubL needle.data hay.data

/-- Splitter for Python `str.split()` with no separator: cut at each
whitespace character (empty fragments are filtered out by `pyWords`). -/
def splitWsAux : List Char → List Char → List (List Char)
  | [], acc => [acc.reverse]
  | c :: cs, acc =>
      if Char.isWhitespace c then acc.reverse :: splitWsAux cs []
      else splitWsAux cs (c :: acc)

/-- Python `str.split()`: the non-empty whitespace-separated words. -/
def pyWords (s : String) : List (List Char) :=
  (splitWsAux s.data []).filter (fun w => w ≠ [])

/-- Python `" ".join(s.split())`: collapse all whitespace runs to single
spaces, dropping leading/trailing whitespace. -/
def collapseWs (s : String) : String :=
  ⟨(List.intersperse [' '] (pyWords s)).flatten⟩

/-! ## The persisted layout artifact (spec section 6) -/

/-- An issue record `{code?, message?}` as found in audit issue lists and in
page validation issue lists. -/
structure Issue where
  code : Option String
  message : Option String
  deriving Repr, DecidableEq

/-- The `meta.validation` object of a page. -/
structure PageValidation where
  issues : Option (List Issue)
  deriving Repr, DecidableEq

/-- The `meta` object of a page. -/
structure PageMeta where
  validation : Option PageValidation
  deriving Repr, DecidableEq

/-- One element of a layout page
(`{type, id, role, text, fontSizePt, wMm, hMm, collisionGroup, debugOnly}`). -/
structure Element where
  type : Option String
  id : Option String
  role : Option String
  text : Option String
  fontSizePt : Option Rat
  wMm : Option Rat
  hMm : Option Rat
  collisionGroup : Option String
  debugOnly : Bool
  deriving Repr, DecidableEq

/-- One page of a layout artifact. -/
structure Page where
  pageNumber : Option Int
  pageRole : Option String
  templateId : Option String
  widthMm : Option Rat
  heightMm : Option Rat
  meta : Option PageMeta
  elements : Option (List Element)
  deriving Repr, DecidableEq

/-- The `params` object persisted inside `layout.json`. -/
structure LayoutParams where
  requestHash : Option String
  deriving Repr, DecidableEq

/-- A parsed `layout.json` document. -/
structure LayoutDoc where
  pages : Option (List Page)
  params : Option LayoutParams
  deriving Repr, DecidableEq

/-- The state of one artifact file: its byte digest together with the outcome
of parsing it as JSON (`none` = `json.JSONDecodeError`). -/
structure FileData where
  digest : String
  parse : Option LayoutDoc
  deriving Repr, DecidableEq

/-- A content-addressed layout store: request hash to layout.json file state
(`none` = file missing). -/
def LayoutStore : Type := String → Option FileData

/-! ## content_completeness_proof.py : the minimum-content metric -/

/-- Guard shared by both counters of `page_has_minimum_content`: a text
element, not debug-only, whose stripped text has length at least 2. -/
def countedTextElement (e : Element) : Bool :=
  e.type == some "text" && !e.debugOnly && decide (2 ≤ (DocFactory.pyStrip (e.text.getD "")).length)

/-- An element counting toward `title_count` in `page_has_minimum_content`. -/
def titleLike (e : Element) : Bool :=
  countedTextElement e &&
    (strContains (pyLower (e.id.getD "")) "title" &&
      !strContains (pyLower (e.id.getD "")) "subtitle")

/-- An element counting toward `body_or_callout_count` in
`page_has_minimum_content`. -/
def bodyCalloutLike (e : Element) : Bool :=
  countedTextElement e &&
    (strContains (pyLower (e.id.getD "")) "body" ||
      strContains (pyLower (e.id.getD "")) "callout" ||
      DocFactory.pyStartsWith (DocFactory.pyStrip (e.text.getD "")) "- ")

/-- `page_has_minimum_content` (content_completeness_proof.py lines 79-105). -/
def page_has_minimum_content (p : Page) : Bool :=
  match p.elements with
  | none => false
  | some els =>
      decide (1 ≤ els.countP (fun e => titleLike e)) &&
        decide (1 ≤ els.countP (fun e => bodyCalloutLike e))

/-! ## The normalized export response (spec sections 3 and 6) -/

/-- The `referenceUsageReport` object of an error body. -/
structure ReferenceUsageReport where
  referenceIndexStatus : Option String
  deriving Repr, DecidableEq

/-- One entry of `pageErrors` in an error body. -/
structure PageError where
  issues : Option (List Issue)
  deriving Repr, DecidableEq

/-- The structured JSON body of a non-success export response
(spec section 6: `requestHash`, `exportAuditHash`, `exportAuditIssues`,
`pageErrors`, `referenceUsageReport`). -/
structure Body where
  requestHash : Option String
  exportAuditHash : Option String
  exportAuditIssues : Option (List Issue)
  pageErrors : Option (List PageError)
  referenceUsageReport : Option ReferenceUsageReport
  deriving Repr, DecidableEq

/-- What the wire gives one export call: either an HTTP success with a status
and (lower-cased) headers, or an `HTTPError` with a status code, its headers,
the raw body text, and the JSON parse outcome of that text (`none` =
`json.JSONDecodeError`). -/
inductive HttpOutcome where
  | success (status : Nat) (headers : List (String × String))
  | failure (code : Nat) (headers : List (String × String)) (raw : String)
      (body : Option Body)
  deriving Repr, DecidableEq

/-- Case-normalized header lookup (`headers.get(key)`). -/
def getHeader (hs : List (String × String)) (k : String) : Option String :=
  (hs.find? (fun p => p.1 == k)).map (fun p => p.2)

/-! ## determinism_proof.py -/

/-- The dictionary returned by determinism_proof.post_export.  `body?` is
`none` on the success path (no `body` key) and `some b` on the error path. -/
structure DetRun where
  status : Nat
  audit_hash : Option String
  request_hash : Option String
  reference_status : Option String
  body? : Option (Option Body)
  deriving Repr, DecidableEq

/-- `post_export` of determinism_proof.py (lines 41-68). -/
def det_post_export : HttpOutcome → DetRun
  | .success st hs =>
      { status := st
        audit_hash := getHeader hs "x-docfactory-audit-hash"
        request_hash := getHeader hs "x-docfactory-request-hash"
        reference_status := getHeader hs "x-docfactory-reference-index-status"
        body? := none }
  | .failure code _ _ b =>
      { status := code
        audit_hash := b.bind (fun p => p.exportAuditHash)
        request_hash := b.bind (fun p => p.requestHash)
        reference_status :=
          (b.bind (fun p => p.referenceUsageReport)).bind
            (fun r => r.referenceIndexStatus)
        body? := some b }

/-- `same_request_hash` of determinism_proof.main (lines 107-110). -/
def same_request_hash (a b : DetRun) : Bool :=
  a.request_hash.isSome && (a.request_hash == b.request_hash)

/-- `same_audit_hash` of determinism_proof.main (lines 112-115). -/
def same_audit_hash (a b : DetRun) : Bool :=
  a.audit_hash.isSome && (a.audit_hash == b.audit_hash)

/-- `determinism_passed` of determinism_proof.main (line 122). -/
def determinism_passed (a b : DetRun) : Bool :=
  (a.status == 200) && (b.status == 200) && same_request_hash a b &&
    same_audit_hash a b

/-- The right-hand side of claim C1 as stated: both calls succeed and the two
responses carry equal, NON-EMPTY request hashes and equal, non-empty audit
hashes. -/
def c1ClaimRhs (a b : DetRun) : Prop :=
  a.status = 200 ∧ b.status = 200 ∧
    (∃ h, a.request_hash = some h ∧ b.request_hash = some h ∧ h ≠ "") ∧
    (∃ h, a.audit_hash = some h ∧ b.audit_hash = some h ∧ h ≠ "")

/-- A pair of identical 200 responses whose request hash is the empty string:
`determinism_passed` accepts it, the claim as stated does not. -/
def c1EmptyHashRun : DetRun :=
  { status := 200
    audit_hash := some "h"
    request_hash := some ""
    reference_status := none
    body? := none }

/-! ## job_isolation_proof.py -/

/-- The dictionary returned by job_isolation_proof.post_export. -/
structure JobRun where
  status : Nat
  request_hash : Option String
  audit_hash : Option String
  body? : Option (Option Body)
  deriving Repr, DecidableEq

/-- `post_export` of job_isolation_proof.py (lines 42-67). -/
def job_post_export : HttpOutcome → JobRun
  | .success st hs =>
      { status := st
        request_hash := getHeader hs "x-docfactory-request-hash"
        audit_hash := getHeader hs "x-docfactory-audit-hash"
        body? := none }
  | .failure code _ _ b =>
      { status := code
        request_hash := b.bind (fun p => p.requestHash)
        audit_hash := b.bind (fun p => p.exportAuditHash)
        body? := some b }

/-- The two artifact files of one job directory (`layout.json`,
`export-audit.json`); `none` = file missing. -/
structure JobDir where
  layout : Option FileData
  audit : Option FileData

/-- A job store snapshot: request hash to job directory state. -/
def JobStore : Type := String → JobDir

/-- `sha256_file` (job_isolation_proof.py lines 70-73): `None` when the file
is missing, else its digest.  Digest equality stands for byte identity. -/
def sha256_file (f : Option FileData) : Option String :=
  f.map (fun fd => fd.digest)

/-- The `hashes_different` output field (job_isolation_proof.py line 171). -/
def jobHashesDifferent (runA runB : JobRun) : Bool :=
  runA.request_hash.isSome && runB.request_hash.isSome &&
    (runA.request_hash != runB.request_hash)

/-- The `job_a_files_stable` output field (job_isolation_proof.py line 172):
digests of job A's files taken before job B's export, compared with digests
taken after it. -/
def jobAFilesStable (runA : JobRun) (fsBefore fsAfter : JobStore) : Bool :=
  match runA.request_hash with
  | none => false
  | some h =>
      (sha256_file (fsBefore h).layout).isSome &&
        (sha256_file (fsBefore h).audit).isSome &&
        (sha256_file (fsBefore h).layout == sha256_file (fsAfter h).layout) &&
        (sha256_file (fsBefore h).audit == sha256_file (fsAfter h).audit)

/-- The `job_b_files_exist` output field (job_isolation_proof.py line 173). -/
def jobBFilesExist (runB : JobRun) (fsAfter : JobStore) : Bool :=
  match runB.request_hash with
  | none => false
  | some h => (fsAfter h).layout.isSome && (fsAfter h).audit.isSome

/-- Inner check of `layout_a_hash_matches` / `layout_b_hash_matches`
(job_isolation_proof.py lines 150-155 and 161-166): the persisted layout
exists, parses, and its `params.requestHash` equals the job's own hash. -/
def layout_hash_matches (h : String) (f : Option FileData) : Bool :=
  match f with
  | none => false
  | some fd =>
      match fd.parse with
      | none => false
      | some doc => (doc.params.bind (fun pr => pr.requestHash)) == some h

/-- The `layout_a_hash_matches` / `layout_b_hash_matches` output fields,
computed from the post-export store state for the given run. -/
def jobLayoutHashMatches (r : JobRun) (fsAfter : JobStore) : Bool :=
  match r.request_hash with
  | none => false
  | some h => layout_hash_matches h (fsAfter h).layout

/-! ## Rounding helpers (Python `round(x, n)` on floats: half-to-even) -/

/-- Round a rational to the nearest integer, ties to even. -/
def roundHalfEven (x : Rat) : Int :=
  let f : Int := ⌊x⌋
  let r : Rat := x - (f : Rat)
  if r < 1 / 2 then f
  else if 1 / 2 < r then f + 1
  else if f % 2 = 0 then f else f + 1

/-- Python `round(x, 2)`. -/
def round2 (q : Rat) : Rat := (roundHalfEven (q * 100) : Rat) / 100

/-- Python `round(x, 4)`. -/
def round4 (q : Rat) : Rat := (roundHalfEven (q * 10000) : Rat) / 10000

/-! ## Shared transport result of the gate verifiers

`post_export` of content_completeness_proof.py, copy_density_proof.py and
no_internal_terms_proof.py all return the same shape: status, lower-cased
headers, parsed body (`None` on success), and `raw_body` only on error. -/

/-- Normalized export response of the page-metric verifiers. -/
structure QaResponse where
  status : Nat
  headers : List (String × String)
  body : Option Body
  raw_body : Option String
  deriving Repr, DecidableEq

/-- The shared `post_export` of the page-metric verifiers
(content_completeness_proof.py lines 41-66, copy_density_proof.py lines
37-63, no_internal_terms_proof.py lines 52-77): `body` is `None` on success,
and `raw_body` appears only on the error path. -/
def qa_post_export : HttpOutcome → QaResponse
  | .success st hs =>
      { status := st, headers := hs, body := none, raw_body := none }
  | .failure code hs raw b =>
      { status := code, headers := hs, body := b, raw_body := some raw }

/-- The request hash join key: the success header on status 200, else the
`requestHash` body field (copy_density_proof.py lines 140-144,
content_completeness_proof.py lines 143-147, no_internal_terms_proof.py
lines 183-187). -/
def request_hash_of (r : QaResponse) : Option String :=
  if r.status == 200 then getHeader r.headers "x-docfactory-request-hash"
  else r.body.bind (fun b => b.requestHash)

/-- `load_layout` (content_completeness_proof.py lines 69-76 and
copy_density_proof.py lines 66-74): `None` when the file is missing or its
content is not parseable JSON. -/
def load_layout (store : LayoutStore) (h : String) : Option LayoutDoc :=
  match store h with
  | none => none
  | some fd => fd.parse

/-! ## copy_density_proof.py -/

/-- One per-page density record of `collect_page_density`. -/
structure CopyDensity where
  page_number : Option Int
  template : Option String
  text_chars : Nat
  text_blocks : Nat
  body_font_min_pt : Rat
  deriving Repr, DecidableEq

/-- The body/callout/table/flow identifier test of `collect_page_density`
(copy_density_proof.py line 102). -/
def copyBodyLikeId (e : Element) : Bool :=
  strContains (pyLower (e.id.getD "")) "body" ||
    strContains (pyLower (e.id.getD "")) "callout" ||
    strContains (pyLower (e.id.getD "")) "table" ||
    strContains (pyLower (e.id.getD "")) "flow"

/-- One loop iteration of `collect_page_density` over the accumulator
(text_chars, text_blocks, minimum body font so far). -/
def copyDensityStep (acc : Nat × Nat × Option Rat) (e : Element) :
    Nat × Nat × Option Rat :=
  if e.type != some "text" then acc
  else if e.debugOnly then acc
  else if e.role.getD "" == "header" then acc
  else
    let text := pyStrip (collapseWs (e.text.getD ""))
    if text == "" then acc
    else
      let chars := acc.1 + text.length
      let blocks := acc.2.1 + 1
      if copyBodyLikeId e then
        let fontSize := e.fontSizePt.getD 0
        match acc.2.2 with
        | none => (chars, blocks, some fontSize)
        | some m => (chars, blocks, some (min m fontSize))
      else (chars, blocks, acc.2.2)

/-- `collect_page_density` (copy_density_proof.py lines 77-116). -/
def collect_page_density (p : Page) : CopyDensity :=
  let r := (p.elements.getD []).foldl copyDensityStep (0, 0, none)
  { page_number := p.pageNumber
    template := p.templateId
    text_chars := r.1
    text_blocks := r.2.1
    body_font_min_pt := round2 ((r.2.2).getD 0) }

/-- The per-case thresholds of copy_density_proof.py. -/
structure CopyThreshold where
  min_chars : Int
  min_blocks : Int
  min_body_font_pt : Rat
  deriving Repr, DecidableEq

/-- The violation check of `run_case` (copy_density_proof.py lines 154-164):
the first violated rule's reason, else `none`. -/
def copyViolation (t : CopyThreshold) (d : CopyDensity) : Option String :=
  if (d.text_chars : Int) < t.min_chars then
    some ("text_chars<" ++ toString t.min_chars)
  else if (d.text_blocks : Int) < t.min_blocks then
    some ("text_blocks<" ++ toString t.min_blocks)
  else if d.body_font_min_pt < t.min_body_font_pt then
    some ("body_font_min_pt<" ++ toString t.min_body_font_pt)
  else none

/-- One entry of the `failures` list: the density record plus the reason. -/
structure CopyFailure where
  density : CopyDensity
  reason : String
  deriving Repr, DecidableEq

/-- The `failures` loop of `run_case`: one record per violating page. -/
def copy_failures (t : CopyThreshold) (ds : List CopyDensity) :
    List CopyFailure :=
  ds.filterMap (fun d => (copyViolation t d).map (fun r => ⟨d, r⟩))

/-- The record returned by copy_density_proof.run_case. -/
structure CopyCaseResult where
  name : String
  status : Nat
  request_hash : Option String
  copywriter_mode : Option String
  copywriter_cache_hit : Option String
  copywriter_cache_key : Option String
  threshold : CopyThreshold
  densities : List CopyDensity
  failures : List CopyFailure
  export_issue_count : Nat
  export_issue_messages : List String
  page_error_count : Nat
  page_error_codes : List String
  passed : Bool
  deriving Repr, DecidableEq

/-- The page list `run_case` iterates (copy_density_proof.py line 147).  The
source iterates `layout.get("pages")` directly, so a parsed layout with no
`pages` list would raise `TypeError`; that path is the `Except.error`. -/
def copy_pages (resp : QaResponse) (store : LayoutStore) :
    Except Unit (List Page) :=
  match (request_hash_of resp).bind (load_layout store) with
  | none => .ok []
  | some doc =>
      match doc.pages with
      | none => .error ()
      | some ps => .ok ps

/-- `run_case` (copy_density_proof.py lines 119-204). -/
def copy_run_case (name : String) (t : CopyThreshold) (resp : QaResponse)
    (store : LayoutStore) : Except Unit CopyCaseResult :=
  match copy_pages resp store with
  | .error e => .error e
  | .ok pages =>
      let densities := pages.map collect_page_density
      let failures := copy_failures t densities
      let issues := (resp.body.bind (fun b => b.exportAuditIssues)).getD []
      let issueMessages :=
        (issues.map (fun i => i.message.getD "")).filter (fun m => m ≠ "")
      let pageErrors := (resp.body.bind (fun b => b.pageErrors)).getD []
      let pageErrorCodes :=
        (pageErrors.map (fun pe =>
          ((pe.issues.getD []).map (fun i => i.code.getD "")).filter
            (fun c => c ≠ ""))).flatten
      .ok
        { name := name
          status := resp.status
          request_hash := request_hash_of resp
          copywriter_mode := getHeader resp.headers "x-docfactory-copywriter-mode"
          copywriter_cache_hit :=
            getHeader resp.headers "x-docfactory-copywriter-cache-hit"
          copywriter_cache_key :=
            getHeader resp.headers "x-docfactory-copywriter-cache-key"
          threshold := t
          densities := densities
          failures := failures
          export_issue_count := issues.length
          export_issue_messages := issueMessages
          page_error_count := pageErrors.length
          page_error_codes := pageErrorCodes
          passed :=
            (resp.status == 200) && decide (0 < densities.length) &&
              (failures.length == 0) }

/-! ## A JSON value type for the printed reports -/

/-- A JSON value, used to state what each entry point prints. -/
inductive JVal where
  | null
  | bool (b : Bool)
  | num (q : Rat)
  | str (s : String)
  | arr (xs : List JVal)
  | obj (fields : List (String × JVal))

/-- Serialization of an optional string (JSON `null` when absent). -/
def jStrOpt : Option String → JVal
  | none => .null
  | some s => .str s

/-- Serialization of an optional integer (JSON `null` when absent). -/
def jIntOpt : Option Int → JVal
  | none => .null
  | some n => .num n

/-! ## layout_density_proof.py -/

/-- Python float coercion `float(v or d)` over an optional numeric field:
both a missing field and a (falsy) zero value fall back to the default. -/
def ratOr (v : Option Rat) (d : Rat) : Rat :=
  match v with
  | none => d
  | some q => if q = 0 then d else q

/-- `element_area` (layout_density_proof.py lines 61-64): zero for line
elements, else the clamped bounding-box area. -/
def element_area (e : Element) : Rat :=
  if e.type == some "line" then 0
  else max 0 ((e.wMm.getD 0) * (e.hMm.getD 0))

/-- `density_group_key` (layout_density_proof.py lines 67-74): the collision
group when present, else the element identifier, else a positional fallback. -/
def density_group_key (e : Element) (idx : Nat) : String :=
  let collision := pyStrip (e.collisionGroup.getD "")
  if collision ≠ "" then collision
  else
    let elementId := pyStrip (e.id.getD "")
    if elementId ≠ "" then elementId
    else (e.type.getD "unknown") ++ "-" ++ toString idx

/-- The excluded roles of `page_density` (layout_density_proof.py line 92). -/
def roleExcluded (r : String) : Bool :=
  r == "background" || r == "header" || r == "footer" || r == "decorative"

/-- `groups[key] = max(groups.get(key, 0.0), area)` over an association list
that keeps dict insertion order. -/
def upsertMax : List (String × Rat) → String → Rat → List (String × Rat)
  | [], k, a => [(k, max 0 a)]
  | (k', v) :: rest, k, a =>
      if k' == k then (k', max v a) :: rest
      else (k', v) :: upsertMax rest k a

/-- One loop iteration of `page_density` over the accumulator
(text_chars, groups). -/
def densityStep (acc : Nat × List (String × Rat)) (ie : Nat × Element) :
    Nat × List (String × Rat) :=
  let e := ie.2
  if e.debugOnly then acc
  else if roleExcluded (e.role.getD "") then acc
  else
    let chars :=
      if e.type == some "text" then acc.1 + (collapseWs (e.text.getD "")).length
      else acc.1
    let area := element_area e
    if area ≤ 0 then (chars, acc.2)
    else (chars, upsertMax acc.2 (density_group_key e ie.1) area)

/-- Sum of the group maxima (`sum(groups.values())`). -/
def sumVals (g : List (String × Rat)) : Rat := (g.map (fun q => q.2)).sum

/-- The clamped page width/height and page area of `page_density`
(layout_density_proof.py lines 78-80). -/
def page_area (p : Page) : Rat :=
  max 1 (ratOr p.widthMm 1) * max 1 (ratOr p.heightMm 1)

/-- The per-group accumulation of `page_density` over the enumerated element
list. -/
def density_groups (p : Page) : List (String × Rat) :=
  ((p.elements.getD []).enum.foldl densityStep (0, [])).2

/-- The unrounded coverage value `sum(groups.values()) / page_area` computed
by `page_density` (layout_density_proof.py line 105). -/
def page_coverage (p : Page) : Rat :=
  sumVals (density_groups p) / page_area p

/-- One per-page density record of `page_density`. -/
structure LayoutDensity where
  page_number : Option Int
  role : String
  template : String
  text_chars : Nat
  coverage_ratio : Rat
  content_groups : Nat
  deriving Repr, DecidableEq

/-- `page_density` (layout_density_proof.py lines 77-113). -/
def page_density (p : Page) : LayoutDensity :=
  let r := (p.elements.getD []).enum.foldl densityStep (0, [])
  { page_number := p.pageNumber
    role := p.pageRole.getD ""
    template := p.templateId.getD ""
    text_chars := r.1
    coverage_ratio := round4 (sumVals r.2 / page_area p)
    content_groups := r.2.length }

/-- The section-divider thresholds of `validate_page`. -/
def dividerMinChars : Nat := 70
/-- The section-divider coverage threshold of `validate_page`. -/
def dividerMinCoverage : Rat := 0.22
/-- The section-divider group threshold of `validate_page`. -/
def dividerMinGroups : Nat := 3
/-- The text-only char threshold of `validate_page`. -/
def textOnlyMinChars : Nat := 78
/-- The text-only coverage threshold of `validate_page`. -/
def textOnlyMinCoverage : Rat := 0.22
/-- The text-only group threshold of `validate_page`. -/
def textOnlyMinGroups : Nat := 3
/-- The general char threshold of `validate_page`. -/
def generalMinChars : Nat := 58
/-- The general coverage threshold of `validate_page`. -/
def generalMinCoverage : Rat := 0.18
/-- The general group threshold of `validate_page`. -/
def generalMinGroups : Nat := 2

/-- `validate_page` (layout_density_proof.py lines 116-136): verdict plus
optional failure reason for one density record. -/
def validate_page (d : LayoutDensity) : Bool × Option String :=
  let role := pyLower d.role
  let template := pyUpper d.template
  if template == "SECTION_DIVIDER" || role == "section-divider" then
    if decide (d.text_chars < dividerMinChars) ||
        decide (d.coverage_ratio < dividerMinCoverage) ||
        decide (d.content_groups < dividerMinGroups) then
      (false, some "section-divider density below threshold")
    else (true, none)
  else if role == "text-only" then
    if decide (d.text_chars < textOnlyMinChars) ||
        decide (d.coverage_ratio < textOnlyMinCoverage) ||
        decide (d.content_groups < textOnlyMinGroups) then
      (false, some "text-only density below threshold")
    else (true, none)
  else if decide (d.text_chars < generalMinChars) ||
      decide (d.coverage_ratio < generalMinCoverage) ||
      decide (d.content_groups < generalMinGroups) then
    (false, some "general density below threshold")
  else (true, none)

/-- The `content-density` validation-issue check of layout_density_proof.main
(lines 183-186). -/
def hasContentDensityIssue (p : Page) : Bool :=
  ((((p.meta.bind (fun m => m.validation)).bind (fun v => v.issues)).getD
    []).any (fun i => i.code == some "content-density"))

/-- The `densities` list of layout_density_proof.main. -/
def ld_densities (pages : List Page) : List LayoutDensity :=
  pages.map page_density

/-- The `density_issues` list of layout_density_proof.main: the page numbers
of pages carrying a service-reported `content-density` issue. -/
def ld_density_issues (pages : List Page) : List (Option Int) :=
  (pages.filter hasContentDensityIssue).map (fun p => p.pageNumber)

/-- One entry of the `failures` list of layout_density_proof.main. -/
structure DensityFailure where
  density : LayoutDensity
  reason : Option String
  deriving Repr, DecidableEq

/-- The `failures` list of layout_density_proof.main. -/
def ld_failures (pages : List Page) : List DensityFailure :=
  pages.filterMap (fun p =>
    let d := page_density p
    if (validate_page d).1 then none else some ⟨d, (validate_page d).2⟩)

/-- The aggregate verdict of layout_density_proof.main (line 202). -/
def ld_passed (pages : List Page) : Bool :=
  ((ld_failures pages).length == 0) && ((ld_density_issues pages).length == 0)
    && decide (4 ≤ (ld_densities pages).length)

/-- Serialization of a density record. -/
def jLayoutDensity (d : LayoutDensity) : JVal :=
  .obj [("page_number", jIntOpt d.page_number), ("role", .str d.role),
    ("template", .str d.template), ("text_chars", .num d.text_chars),
    ("coverage_ratio", .num d.coverage_ratio),
    ("content_groups", .num d.content_groups)]

/-- Serialization of a failure record. -/
def jDensityFailure (f : DensityFailure) : JVal :=
  .obj [("page_number", jIntOpt f.density.page_number),
    ("role", .str f.density.role), ("template", .str f.density.template),
    ("reason", jStrOpt f.reason), ("text_chars", .num f.density.text_chars),
    ("coverage_ratio", .num f.density.coverage_ratio),
    ("content_groups", .num f.density.content_groups)]

/-- `main` of layout_density_proof.py (lines 139-221), from the trigger
observations onward: the number of fixture images, the newest job hash
reported by `latest_job`, and the artifact store.  Yields the printed report
and exit status; the unguarded `json.loads` at line 169 raises on an
unparsable layout artifact, which is the `Except.error`. -/
def layout_density_main (imageCount : Nat) (latest : Option String)
    (store : LayoutStore) : Except Unit (List (String × JVal) × Nat) :=
  match latest with
  | none =>
      .ok ([("passed", .bool false), ("reason", .str "no new layout artifact")],
        1)
  | some h =>
      match store h with
      | none =>
          .ok ([("passed", .bool false),
            ("reason", .str "layout artifact missing"),
            ("request_hash", .str h)], 1)
      | some fd =>
          match fd.parse with
          | none => .error ()
          | some doc =>
              let pages := doc.pages.getD []
              let passed := ld_passed pages
              .ok ([("passed", .bool passed), ("request_hash", .str h),
                ("image_count", .num imageCount),
                ("page_count", .num (ld_densities pages).length),
                ("density_issues", .arr ((ld_density_issues pages).map jIntOpt)),
                ("failures", .arr ((ld_failures pages).map jDensityFailure)),
                ("densities", .arr ((ld_densities pages).map jLayoutDensity))],
                if passed then 0 else 1)

/-- The store used to exhibit the unparsable-artifact crash: the latest job's
`layout.json` exists but is not valid JSON. -/
def c9Store : LayoutStore :=
  fun h => if h == "deadbeef" then some { digest := "d", parse := none }
  else none

/-! ## Claim-side coverage formula (C7) -/

/-- Whether an enumerated element contributes a (group key, area) pair: not
debug-only, role not excluded, positive area. -/
def qualifier (ie : Nat × Element) : Option (String × Rat) :=
  if ie.2.debugOnly then none
  else if roleExcluded (ie.2.role.getD "") then none
  else if element_area ie.2 ≤ 0 then none
  else some (density_group_key ie.2 ie.1, element_area ie.2)

/-- The (group key, area) pairs of the qualifying elements of a page. -/
def qualifyingAreas (p : Page) : List (String × Rat) :=
  (p.elements.getD []).enum.filterMap qualifier

/-- The keys of a group association list. -/
def keysOf (g : List (String × Rat)) : List String := g.map (fun q => q.1)

/-- Lookup of a key's accumulated maximum in a group association list. -/
def lookupVal (g : List (String × Rat)) (k : String) : Option Rat :=
  (g.find? (fun q => q.1 == k)).map (fun q => q.2)

/-- Fold a list of (key, area) pairs into a group association list, exactly
as the `page_density` loop fills its `groups` dict. -/
def applyGroups (g : List (String × Rat)) (L : List (String × Rat)) :
    List (String × Rat) :=
  L.foldl (fun acc q => upsertMax acc q.1 q.2) g

/-- The running-maximum view of one key's updates: `none` while the key is
unseen, then the zero-clamped maximum of its areas. -/
def combineMax (o : Option Rat) (L : List (String × Rat)) : Option Rat :=
  L.foldl (fun acc q =>
    match acc with
    | none => some (max 0 q.2)
    | some v => some (max v q.2)) o

/-- The distinct members of a list, in first-occurrence order. -/
def firstKeys (ks : List String) : List String :=
  ks.foldl (fun acc k => if k ∈ acc then acc else acc ++ [k]) []

/-- The maximum area among the pairs of `L` keyed `k` (zero-clamped, matching
`max(groups.get(key, 0.0), area)`). -/
def groupMax (L : List (String × Rat)) (k : String) : Rat :=
  ((L.filter (fun q => q.1 == k)).map (fun q => q.2)).foldl max 0

/-- Claim C7's coverage formula: the sum over groups of the group's maximum
element area, divided by the page area. -/
def coverageSpec (p : Page) : Rat :=
  ((firstKeys ((qualifyingAreas p).map (fun q => q.1))).map
    (fun k => groupMax (qualifyingAreas p) k)).sum / page_area p

/-! ## no_internal_terms_proof.py -/

/-- A word character of the `\b` regex boundary (the forbidden tokens and the
texts the gate is probed with are ASCII). -/
def isWordChar (c : Char) : Bool := c.isAlphanum || c == '_'

/-- Case-insensitive search for `\b<w>\b` in `s` (`pattern.search`): the
lower-cased token occurs with no word character directly before or after. -/
def searchWordCI (w : String) (s : String) : Bool :=
  let cs := (pyLower s).data
  let p := (pyLower w).data
  (List.range (cs.length + 1)).any (fun i =>
    substrAtL p cs i &&
    (decide (i = 0) || !(isWordChar (cs.getD (i - 1) ' '))) &&
    (decide (cs.length ≤ i + p.length) || !(isWordChar (cs.getD (i + p.length) ' '))))

/-- The forbidden internal-vocabulary tokens of `FORBIDDEN_PATTERNS`
(no_internal_terms_proof.py lines 16-24), each wrapped `\b…\b` with
`re.IGNORECASE` in the source. -/
def FORBIDDEN_PATTERNS : List String :=
  ["requestspec", "variantindex", "referencedigest", "layout", "validation",
    "theme-factory", "webapp-testing"]

/-- The regex source text of one forbidden token (`pattern.pattern`). -/
def patternSource (w : String) : String := "\\b" ++ w ++ "\\b"

/-- One rendered-text record collected by `read_layout_texts`. -/
structure TextItem where
  page : Option Int
  id : Option String
  text : String
  deriving Repr, DecidableEq

/-- `read_layout_texts` (no_internal_terms_proof.py lines 80-113): every
non-debug text element of the resolved layout; empty when the artifact is
missing, unparsable, or has no page list. -/
def read_layout_texts (store : LayoutStore) (h : String) : List TextItem :=
  match store h with
  | none => []
  | some fd =>
      match fd.parse with
      | none => []
      | some doc =>
          match doc.pages with
          | none => []
          | some pages =>
              (pages.map (fun p =>
                match p.elements with
                | none => []
                | some els =>
                    (els.filter (fun e =>
                      e.type == some "text" && !e.debugOnly)).map
                      (fun e =>
                        { page := p.pageNumber, id := e.id,
                          text := e.text.getD "" }))).flatten

/-- One entry of `forbidden_hits`. -/
structure ForbiddenHit where
  page : Option Int
  id : Option String
  pattern : String
  text : String
  deriving Repr, DecidableEq

/-- `find_forbidden_hits` (no_internal_terms_proof.py lines 116-131): one hit
per (text item, matching pattern) pair. -/
def find_forbidden_hits (items : List TextItem) : List ForbiddenHit :=
  (items.map (fun item =>
    (FORBIDDEN_PATTERNS.filter (fun w => searchWordCI w item.text)).map
      (fun w =>
        { page := item.page, id := item.id, pattern := patternSource w,
          text := item.text }))).flatten

/-- `has_internal_term_gate_issue` (no_internal_terms_proof.py lines
134-147). -/
def has_internal_term_gate_issue (resp : QaResponse) : Bool :=
  match resp.body with
  | none => false
  | some b =>
      match b.exportAuditIssues with
      | none => false
      | some issues =>
          issues.any (fun i =>
            strContains (i.message.getD "") "internal term leakage detected")

/-- The text items the gate scans for one response. -/
def nit_texts (resp : QaResponse) (store : LayoutStore) : List TextItem :=
  match request_hash_of resp with
  | some h => read_layout_texts store h
  | none => []

/-- The `passed` verdict of no_internal_terms_proof.main (lines 192-196):
status 200 demands no forbidden hit and a present request hash; status 400
demands the explicit leakage issue; every other status fails. -/
def nit_passed (resp : QaResponse) (store : LayoutStore) : Bool :=
  if resp.status == 200 then
    ((find_forbidden_hits (nit_texts resp store)).length == 0) &&
      (request_hash_of resp).isSome
  else if resp.status == 400 then has_internal_term_gate_issue resp
  else false

/-- A 422 rejection that carries the explicit leakage issue: a client error
the gate nonetheless fails, because the code tests `status == 400` only. -/
def c8Err : QaResponse :=
  { status := 422
    headers := []
    body := some
      { requestHash := none
        exportAuditHash := none
        exportAuditIssues := some
          [{ code := none, message := some "internal term leakage detected" }]
        pageErrors := none
        referenceUsageReport := none }
    raw_body := some "x" }

/-- A success response carrying a request hash, used with an empty artifact
store to exercise the success arm of the gate. -/
def c8Ok : QaResponse :=
  { status := 200
    headers := [("x-docfactory-request-hash", "h")]
    body := none
    raw_body := none }

/-- A concrete error response used to evaluate one copy-density case. -/
def c5Resp : QaResponse :=
  { status := 500, headers := [], body := none, raw_body := some "x" }

/-- The thresholds of the concrete `onepager_1p` case. -/
def c5Thr : CopyThreshold :=
  { min_chars := 180, min_blocks := 4, min_body_font_pt := 12 }

/-- The record `copy_run_case` produces for `c5Resp` with an empty store. -/
def c5Out : CopyCaseResult :=
  { name := "onepager_1p"
    status := 500
    request_hash := none
    copywriter_mode := none
    copywriter_cache_hit := none
    copywriter_cache_key := none
    threshold := c5Thr
    densities := []
    failures := []
    export_issue_count := 0
    export_issue_messages := []
    page_error_count := 0
    page_error_codes := []
    passed := false }

/-- A page with one large non-body-like text element: `collect_page_density`
counts its block but records `body_font_min_pt = 0`. -/
def c10Page : Page :=
  { pageNumber := some 1
    pageRole := none
    templateId := some "TITLE_ONLY"
    widthMm := some 210
    heightMm := some 297
    meta := none
    elements := some
      [{ type := some "text"
         id := some "t-1"
         role := none
         text := some "big headline"
         fontSizePt := some 40
         wMm := some 100
         hMm := some 30
         collisionGroup := none
         debugOnly := false }] }

/-- A threshold set whose only binding rule is a positive minimum body font. -/
def c10Threshold : CopyThreshold :=
  { min_chars := 0, min_blocks := 0, min_body_font_pt := 12 }

/-! ## The CLI reports of the eleven entry points (claim C3)

Each `main` below is the source file's `main` from its observations onward:
it yields the association list of top-level keys of the one JSON report the
entry point prints, together with the process exit status.  Parsed JSON
echoed back into a report (error bodies, reference usage reports) is
re-serialized from the schema-typed model, omitting absent optional fields. -/

/-- Serialization of an issue record. -/
def jIssue (i : Issue) : JVal :=
  .obj
    ((match i.code with | none => [] | some c => [("code", JVal.str c)]) ++
    (match i.message with | none => [] | some m => [("message", JVal.str m)]))

/-- Serialization of a page-error record. -/
def jPageError (pe : PageError) : JVal :=
  .obj (match pe.issues with
    | none => []
    | some l => [("issues", JVal.arr (l.map jIssue))])

/-- Serialization of a reference usage report. -/
def jRefUsage (r : ReferenceUsageReport) : JVal :=
  .obj (match r.referenceIndexStatus with
    | none => []
    | some s => [("referenceIndexStatus", JVal.str s)])

/-- Serialization of an error body. -/
def jBody (b : Body) : JVal :=
  .obj
    ((match b.requestHash with
      | none => [] | some s => [("requestHash", JVal.str s)]) ++
    (match b.exportAuditHash with
      | none => [] | some s => [("exportAuditHash", JVal.str s)]) ++
    (match b.exportAuditIssues with
      | none => []
      | some l => [("exportAuditIssues", JVal.arr (l.map jIssue))]) ++
    (match b.pageErrors with
      | none => []
      | some l => [("pageErrors", JVal.arr (l.map jPageError))]) ++
    (match b.referenceUsageReport with
      | none => []
      | some r => [("referenceUsageReport", jRefUsage r)]))

/-- Serialization of a nullable body. -/
def jBodyOpt : Option Body → JVal
  | none => .null
  | some b => jBody b

/-- Serialization of determinism_proof's per-run dictionary. -/
def jDetRun (r : DetRun) : JVal :=
  .obj ([("status", JVal.num r.status), ("audit_hash", jStrOpt r.audit_hash),
    ("request_hash", jStrOpt r.request_hash),
    ("reference_status", jStrOpt r.reference_status)] ++
    (match r.body? with
      | none => []
      | some b => [("body", jBodyOpt b)]))

/-- `main` of determinism_proof.py (lines 88-125): prints the two runs and
the hash comparisons; never exits non-zero and prints no `passed` field. -/
def determinism_main (wireA wireB : HttpOutcome) :
    List (String × JVal) × Nat :=
  let runA := det_post_export wireA
  let runB := det_post_export wireB
  ([("run_a", jDetRun runA), ("run_b", jDetRun runB),
    ("same_request_hash", .bool (same_request_hash runA runB)),
    ("same_audit_hash", .bool (same_audit_hash runA runB)),
    ("determinism_passed", .bool (determinism_passed runA runB))], 0)

/-- Serialization of job_isolation_proof's per-run dictionary. -/
def jJobRun (r : JobRun) : JVal :=
  .obj ([("status", JVal.num r.status),
    ("request_hash", jStrOpt r.request_hash),
    ("audit_hash", jStrOpt r.audit_hash)] ++
    (match r.body? with
      | none => []
      | some b => [("body", jBodyOpt b)]))

/-- `main` of job_isolation_proof.py (lines 98-178): prints the runs and
isolation fields; never exits non-zero and prints no `passed` field. -/
def job_isolation_main (wireA wireB : HttpOutcome)
    (fsBefore fsAfter : JobStore) : List (String × JVal) × Nat :=
  let runA := job_post_export wireA
  let runB := job_post_export wireB
  ([("run_a", jJobRun runA), ("run_b", jJobRun runB),
    ("hashes_different", .bool (jobHashesDifferent runA runB)),
    ("job_a_files_stable", .bool (jobAFilesStable runA fsBefore fsAfter)),
    ("job_b_files_exist", .bool (jobBFilesExist runB fsAfter)),
    ("layout_a_hash_matches", .bool (jobLayoutHashMatches runA fsAfter)),
    ("layout_b_hash_matches", .bool (jobLayoutHashMatches runB fsAfter))], 0)

/-- The result dictionary of export_gate_proof.post_form (lines 10-27). -/
inductive EGResult where
  | success (status : Nat) (content_type : Option String)
      (content_disposition : Option String)
  | failure (status : Nat) (body : String)
  deriving Repr, DecidableEq

/-- Serialization of a post_form result. -/
def jEGResult : EGResult → JVal
  | .success st ct cd =>
      .obj [("status", .num st), ("content_type", jStrOpt ct),
        ("content_disposition", jStrOpt cd)]
  | .failure st b => .obj [("status", .num st), ("body", .str b)]

/-- `main` of export_gate_proof.py (lines 30-50): prints the two probes;
never exits non-zero and prints no `passed` field. -/
def export_gate_main (normal blocked : EGResult) :
    List (String × JVal) × Nat :=
  ([("normal_export", jEGResult normal),
    ("blocked_export", jEGResult blocked)], 0)

/-- `has_reference_source_gate_issue` (reference_gate_proof.py lines 67-82):
both provenance markers appear as substrings among the issue messages. -/
def has_reference_source_gate_issue (resp : QaResponse) : Bool :=
  match resp.body with
  | none => false
  | some b =>
      match b.exportAuditIssues with
      | none => false
      | some issues =>
          ["stylePreset.source must be references",
            "layoutPlan.source must be references"].all (fun marker =>
            (issues.map (fun i => i.message.getD "")).any (fun m =>
              strContains m marker))

/-- `main` of reference_gate_proof.py (lines 104-129): prints the blocked
and allowed probes; never exits non-zero and prints no `passed` field. -/
def reference_gate_main (wireBlocked wireAllowed : HttpOutcome) :
    List (String × JVal) × Nat :=
  let blocked := qa_post_export wireBlocked
  let allowed := qa_post_export wireAllowed
  ([("blocked_status", .num blocked.status),
    ("blocked_by_reference_source_gate",
      .bool (has_reference_source_gate_issue blocked)),
    ("blocked_body", jBodyOpt blocked.body),
    ("allowed_status", .num allowed.status),
    ("allowed_audit_hash",
      jStrOpt (getHeader allowed.headers "x-docfactory-audit-hash"))], 0)

/-- A parsed `reference-index.json` (spec section 6: `referenceCount`). -/
structure RefIndex where
  referenceCount : Option Int
  deriving Repr, DecidableEq

/-- `has_reference_gate_issue` (reference_index_proof.py lines 74-88). -/
def has_reference_gate_issue (resp : QaResponse) : Bool :=
  match resp.body with
  | none => false
  | some b =>
      match b.exportAuditIssues with
      | none => false
      | some issues =>
          issues.any (fun i =>
            strContains (i.message.getD "") "reference index must be fresh")

/-- `main` of reference_index_proof.py (lines 91-130): prints the freshness
probe results; never exits non-zero and prints no `passed` field. -/
def reference_index_main (initialIndex : Option RefIndex)
    (touched : Option String) (wireStale wireRebuilt : HttpOutcome)
    (rebuiltIndex : Option RefIndex) : List (String × JVal) × Nat :=
  let staleExport := qa_post_export wireStale
  let rebuiltExport := qa_post_export wireRebuilt
  ([("reference_index_exists", .bool initialIndex.isSome),
    ("reference_count",
      jIntOpt (initialIndex.bind (fun i => i.referenceCount))),
    ("touched_reference", jStrOpt touched),
    ("stale_export_status", .num staleExport.status),
    ("stale_blocked_by_reference_gate",
      .bool (has_reference_gate_issue staleExport)),
    ("rebuild_export_status", .num rebuiltExport.status),
    ("rebuild_unblocked", .bool (rebuiltExport.status == 200)),
    ("rebuild_reference_count",
      jIntOpt (rebuiltIndex.bind (fun i => i.referenceCount))),
    ("stale_reference_usage",
      match staleExport.body with
      | none => .null
      | some b =>
          match b.referenceUsageReport with
          | none => .null
          | some r => jRefUsage r)], 0)

/-- One parsed `[quality]` log line of runtime_gate_proof.parse_quality. -/
structure QualityRec where
  version : Int
  failed_pages : Int
  page_numbers : List String
  raw : String
  deriving Repr, DecidableEq

/-- The browser observation record returned by runtime_gate_proof.inspect
(lines 32-66); produced by the headless-browser session, taken as input. -/
structure InspectResult where
  url : String
  export_button_disabled : Bool
  runtime_log_present : Bool
  status_text : String
  regenerate_button_label : String
  failed_preview_cards : Nat
  quality_passes : List QualityRec
  screenshot : String
  deriving Repr, DecidableEq

/-- Serialization of one quality record. -/
def jQualityRec (q : QualityRec) : JVal :=
  .obj [("version", .num q.version), ("failed_pages", .num q.failed_pages),
    ("page_numbers", .arr (q.page_numbers.map JVal.str)),
    ("raw", .str q.raw)]

/-- Serialization of one inspect record. -/
def jInspect (r : InspectResult) : JVal :=
  .obj [("url", .str r.url),
    ("export_button_disabled", .bool r.export_button_disabled),
    ("runtime_log_present", .bool r.runtime_log_present),
    ("status_text", .str r.status_text),
    ("regenerate_button_label", .str r.regenerate_button_label),
    ("failed_preview_cards", .num r.failed_preview_cards),
    ("quality_passes", .arr (r.quality_passes.map jQualityRec)),
    ("screenshot", .str r.screenshot)]

/-- `main` of runtime_gate_proof.py (lines 69-74): prints the three
inspections; never exits non-zero and prints no `passed` field. -/
def runtime_gate_main (release debug tiny : InspectResult) :
    List (String × JVal) × Nat :=
  ([("release", jInspect release), ("debug", jInspect debug),
    ("tiny_custom", jInspect tiny)], 0)

/-! ## no_domain_copy_proof.py -/

/-- Python `str.splitlines()` helper: cut at each newline. -/
def splitLinesAux : List Char → List Char → List (List Char)
  | [], acc => [acc.reverse]
  | c :: cs, acc =>
      if c = '\n' then acc.reverse :: splitLinesAux cs []
      else splitLinesAux cs (c :: acc)

/-- Drop the final fragment when empty (Python `splitlines` yields no final
empty line for a trailing newline or an empty string). -/
def dropFinalEmpty : List String → List String
  | [] => []
  | [x] => if x = "" then [] else [x]
  | x :: xs => x :: dropFinalEmpty xs

/-- Python `str.splitlines()` (over `\n`; the scanned sources are
newline-separated). -/
def pySplitLines (s : String) : List String :=
  dropFinalEmpty ((splitLinesAux s.data []).map (fun l => (⟨l⟩ : String)))

/-- Match a token sequence at position `i`: each token literal, separated by
arbitrary whitespace runs (the gaps written as backslash-s-star in the
domain-copy patterns). -/
def seqAt : List String → List Char → Nat → Bool
  | [], _, _ => true
  | t :: ts, cs, i =>
      substrAtL t.data cs i &&
      (List.range (cs.length + 1 - (i + t.data.length))).any (fun gap =>
        ((cs.drop (i + t.data.length)).take gap).all Char.isWhitespace &&
        seqAt ts cs (i + t.data.length + gap))

/-- `pattern.search` for a token sequence with whitespace-run gaps. -/
def searchSeq (toks : List String) (s : String) : Bool :=
  (List.range (s.data.length + 1)).any (fun i => seqAt toks s.data i)

/-- One entry of the `PATTERNS` table of no_domain_copy_proof.py (lines
9-17): the regex source text, its literal tokens separated by the
whitespace-run gaps, and whether `re.IGNORECASE` is set. -/
structure ScanPattern where
  source : String
  gapToks : List String
  ci : Bool
  deriving Repr, DecidableEq

/-- The domain-copy pattern match (`pattern.search(line)`). -/
def scanMatch (p : ScanPattern) (line : String) : Bool :=
  if p.ci then searchSeq (p.gapToks.map pyLower) (pyLower line)
  else searchSeq p.gapToks line

/-- `PATTERNS` of no_domain_copy_proof.py (lines 9-17). -/
def PATTERNS : List ScanPattern :=
  [{ source := "NATURE_CAMPAIGN", gapToks := ["NATURE_CAMPAIGN"], ci := true },
   { source := "B2B_BROCHURE", gapToks := ["B2B_BROCHURE"], ci := true },
   { source := "B2B_SERVICE", gapToks := ["B2B_SERVICE"], ci := true },
   { source := "자연을\\s*사랑하자", gapToks := ["자연을", "사랑하자"],
     ci := false },
   { source := "자연\\s*캠페인", gapToks := ["자연", "캠페인"], ci := false },
   { source := "임직원\\s*맞춤\\s*건기식",
     gapToks := ["임직원", "맞춤", "건기식"], ci := false },
   { source := "건기식\\s*소분", gapToks := ["건기식", "소분"], ci := false }]

/-- One finding of `scan_file`. -/
structure ScanHit where
  file : String
  line : Nat
  pattern : String
  snippet : String
  deriving Repr, DecidableEq

/-- `scan_file` (no_domain_copy_proof.py lines 21-38): one hit per
(line, matching pattern) pair; line numbers start at 1. -/
def scan_file (path : String) (text : String) : List ScanHit :=
  ((pySplitLines text).enum.map (fun il =>
    (PATTERNS.filter (fun p => scanMatch p il.2)).map (fun p =>
      { file := path, line := il.1 + 1, pattern := p.source,
        snippet := pyStrip il.2 }))).flatten

/-- Serialization of one finding. -/
def jScanHit (h : ScanHit) : JVal :=
  .obj [("file", .str h.file), ("line", .num h.line),
    ("pattern", .str h.pattern), ("snippet", .str h.snippet)]

/-- `main` of no_domain_copy_proof.py (lines 41-60): scans the eligible
source files (the `.ts/.tsx/.js/.jsx` files under `src/` and `app/`, given as
path-content pairs) and exits 1 exactly when a finding exists. -/
def no_domain_copy_main (files : List (String × String)) :
    List (String × JVal) × Nat :=
  let findings := (files.map (fun f => scan_file f.1 f.2)).flatten
  ([("passed", .bool (findings.length == 0)),
    ("finding_count", .num findings.length),
    ("findings", .arr (findings.map jScanHit))],
    if findings.isEmpty then 0 else 1)

/-! ## content_completeness_proof.py : cases and report -/

/-- The `gate_proof` sub-dictionary of content_completeness_proof.run_case
(lines 155-161). -/
structure CCGateProof where
  internal_terms : Option String
  completeness : Option String
  reference_usage : Option String
  deriving Repr, DecidableEq

/-- The record returned by content_completeness_proof.run_case. -/
structure CCCaseResult where
  name : String
  status : Nat
  request_hash : Option String
  page_checks : List Bool
  gate_proof : Option CCGateProof
  export_issue_count : Nat
  passed : Bool
  deriving Repr, DecidableEq

/-- `run_case` of content_completeness_proof.py (lines 108-179), from the
export response and artifact store. -/
def cc_run_case (name : String) (resp : QaResponse) (store : LayoutStore) :
    CCCaseResult :=
  let requestHash := request_hash_of resp
  let layout := requestHash.bind (load_layout store)
  let pages : Option (List Page) := layout.bind (fun doc => doc.pages)
  let page_checks :=
    match pages with
    | some ps => ps.map page_has_minimum_content
    | none => []
  let gate_proof : Option CCGateProof :=
    if resp.status == 200 then
      some
        { internal_terms :=
            getHeader resp.headers "x-docfactory-content-internal-terms"
          completeness :=
            getHeader resp.headers "x-docfactory-content-completeness"
          reference_usage :=
            getHeader resp.headers "x-docfactory-reference-usage" }
    else none
  let export_issues := (resp.body.bind (fun b => b.exportAuditIssues)).getD []
  let passed0 :=
    (resp.status == 200) && decide (0 < page_checks.length) &&
      page_checks.all id
  let passed :=
    match gate_proof with
    | some gp =>
        passed0 && (gp.completeness == some "pass") &&
          (gp.internal_terms == some "pass")
    | none => passed0
  { name := name
    status := resp.status
    request_hash := requestHash
    page_checks := page_checks
    gate_proof := gate_proof
    export_issue_count := export_issues.length
    passed := passed }

/-- Serialization of a gate-proof record. -/
def jCCGateProof (g : CCGateProof) : JVal :=
  .obj [("internal_terms", jStrOpt g.internal_terms),
    ("completeness", jStrOpt g.completeness),
    ("reference_usage", jStrOpt g.reference_usage)]

/-- Serialization of one completeness case record. -/
def jCCCase (r : CCCaseResult) : JVal :=
  .obj [("name", .str r.name), ("status", .num r.status),
    ("request_hash", jStrOpt r.request_hash),
    ("page_checks", .arr (r.page_checks.map JVal.bool)),
    ("gate_proof",
      match r.gate_proof with
      | none => .null
      | some g => jCCGateProof g),
    ("export_issue_count", .num r.export_issue_count),
    ("passed", .bool r.passed)]

/-- `main` of content_completeness_proof.py (lines 182-223): the three fixed
cases, each given its own export response and store snapshot; prints one
report with a `passed` boolean and exits 1 when it is false. -/
def content_completeness_main (obs1 obs2 obs3 : QaResponse × LayoutStore) :
    List (String × JVal) × Nat :=
  let results :=
    [cc_run_case "empty-content" obs1.1 obs1.2,
      cc_run_case "poster-two-pages" obs2.1 obs2.2,
      cc_run_case "friend-intro" obs3.1 obs3.2]
  let passed := results.all (fun r => r.passed)
  ([("passed", .bool passed), ("results", .arr (results.map jCCCase))],
    if passed then 0 else 1)

/-! ## copy_density_proof.py : cases and report -/

/-- Serialization of a copy-density threshold set. -/
def jCopyThreshold (t : CopyThreshold) : JVal :=
  .obj [("min_chars", .num t.min_chars), ("min_blocks", .num t.min_blocks),
    ("min_body_font_pt", .num t.min_body_font_pt)]

/-- Serialization of a copy-density record. -/
def jCopyDensity (d : CopyDensity) : JVal :=
  .obj [("page_number", jIntOpt d.page_number),
    ("template", jStrOpt d.template), ("text_chars", .num d.text_chars),
    ("text_blocks", .num d.text_blocks),
    ("body_font_min_pt", .num d.body_font_min_pt)]

/-- Serialization of a copy-density failure (`{**density, "reason": …}`). -/
def jCopyFailure (f : CopyFailure) : JVal :=
  .obj [("page_number", jIntOpt f.density.page_number),
    ("template", jStrOpt f.density.template),
    ("text_chars", .num f.density.text_chars),
    ("text_blocks", .num f.density.text_blocks),
    ("body_font_min_pt", .num f.density.body_font_min_pt),
    ("reason", .str f.reason)]

/-- Serialization of one copy-density case record. -/
def jCopyCase (r : CopyCaseResult) : JVal :=
  .obj [("name", .str r.name), ("status", .num r.status),
    ("request_hash", jStrOpt r.request_hash),
    ("copywriter_mode", jStrOpt r.copywriter_mode),
    ("copywriter_cache_hit", jStrOpt r.copywriter_cache_hit),
    ("copywriter_cache_key", jStrOpt r.copywriter_cache_key),
    ("threshold", jCopyThreshold r.threshold),
    ("densities", .arr (r.densities.map jCopyDensity)),
    ("failures", .arr (r.failures.map jCopyFailure)),
    ("export_issue_count", .num r.export_issue_count),
    ("export_issue_messages", .arr (r.export_issue_messages.map JVal.str)),
    ("page_error_count", .num r.page_error_count),
    ("page_error_codes", .arr (r.page_error_codes.map JVal.str)),
    ("passed", .bool r.passed)]

/-- The thresholds of copy_density_proof.main's first case (lines 219-223). -/
def copyThrPosterSet : CopyThreshold :=
  { min_chars := 220, min_blocks := 4, min_body_font_pt := 16 }

/-- The thresholds of copy_density_proof.main's second case (lines 232-237). -/
def copyThrOnepager : CopyThreshold :=
  { min_chars := 180, min_blocks := 4, min_body_font_pt := 12 }

/-- `main` of copy_density_proof.py (lines 207-252): the two fixed cases;
prints one report with a `passed` boolean and exits 1 when it is false; a
crash inside either case propagates. -/
def copy_density_main (obs1 obs2 : QaResponse × LayoutStore) :
    Except Unit (List (String × JVal) × Nat) :=
  match copy_run_case "poster_set_3p" copyThrPosterSet obs1.1 obs1.2,
      copy_run_case "onepager_1p" copyThrOnepager obs2.1 obs2.2 with
  | .ok r1, .ok r2 =>
      let results := [r1, r2]
      let passed := results.all (fun r => r.passed)
      .ok ([("passed", .bool passed),
        ("results", .arr (results.map jCopyCase))],
        if passed then 0 else 1)
  | _, _ => .error ()

/-! ## no_internal_terms_proof.py : report -/

/-- Serialization of one forbidden hit. -/
def jForbiddenHit (h : ForbiddenHit) : JVal :=
  .obj [("page", jIntOpt h.page), ("id", jStrOpt h.id),
    ("pattern", .str h.pattern), ("text", .str h.text)]

/-- `main` of no_internal_terms_proof.py (lines 150-209): prints one report
with a `passed` boolean and exits 1 when it is false. -/
def no_internal_terms_main (resp : QaResponse) (store : LayoutStore) :
    List (String × JVal) × Nat :=
  let hits := find_forbidden_hits (nit_texts resp store)
  let passed := nit_passed resp store
  ([("status", .num resp.status),
    ("request_hash", jStrOpt (request_hash_of resp)),
    ("forbidden_hit_count", .num hits.length),
    ("forbidden_hits", .arr (hits.map jForbiddenHit)),
    ("blocked_by_internal_term_gate",
      .bool (has_internal_term_gate_issue resp)),
    ("passed", .bool passed)], if passed then 0 else 1)

/-- Lookup of a top-level boolean report field. -/
def getBoolField (r : List (String × JVal)) (k : String) : Option Bool :=
  match (r.find? (fun f => f.1 == k)).map (fun f => f.2) with
  | some (JVal.bool b) => some b
  | _ => none

/-- Concrete normal probe for the export gate. -/
def c3EgNormal : EGResult :=
  .success 200 (some "application/vnd.openxmlformats") none

/-- Concrete blocked probe for the export gate. -/
def c3EgBlocked : EGResult := .failure 422 "size policy violation"

/-- The report layout_density_proof.main prints when no job artifact is
found. -/
def c3LdOut : List (String × JVal) × Nat :=
  ([("passed", .bool false), ("reason", .str "no new layout artifact")], 1)


end DocFactory

/-- Helper: when no element of the list is body/callout/table/flow-marked,
the minimum-body-font accumulator of `collect_page_density` stays `none`. -/
theorem copyFold_noBodyLike (l : List DocFactory.Element)
    (h : ∀ e ∈ l, DocFactory.copyBodyLikeId e = false) :
    ∀ c b : Nat,
      (l.foldl DocFactory.copyDensityStep (c, b, none)).2.2 = none := by
  induction l with
  | nil => intro c b; rfl
  | cons e tl ih =>
      intro c b
      have he := h e (by simp)
      have htl : ∀ x ∈ tl, DocFactory.copyBodyLikeId x = false :=
        fun x hx => h x (by simp [hx])
      simp only [List.foldl_cons]
      by_cases h1 : e.type != some "text"
      · simpa [DocFactory.copyDensityStep, h1] using ih htl c b
      · by_cases h2 : e.debugOnly
        · simpa [DocFactory.copyDensityStep, h1, h2] using ih htl c b
        · by_cases h3 : e.role.getD "" == "header"
          · simpa [DocFactory.copyDensityStep, h1, h2, h3] using ih htl c b
          · by_cases h4 :
              DocFactory.pyStrip (DocFactory.collapseWs (e.text.getD "")) == ""
            · simpa [DocFactory.copyDensityStep, h1, h2, h3, h4] using
                ih htl c b
            · simpa [DocFactory.copyDensityStep, h1, h2, h3, h4, he] using
                ih htl _ _

/-- Helper: a reason produced by `copyViolation` names the violated rule. -/
theorem copyViolation_names_rule (t : DocFactory.CopyThreshold)
    (d : DocFactory.CopyDensity) (r : String)
    (hv : DocFactory.copyViolation t d = some r) :
    (r = "text_chars<" ++ toString t.min_chars ∧
        (d.text_chars : Int) < t.min_chars) ∨
      (r = "text_blocks<" ++ toString t.min_blocks ∧
        (d.text_blocks : Int) < t.min_blocks) ∨
      (r = "body_font_min_pt<" ++ toString t.min_body_font_pt ∧
        d.body_font_min_pt < t.min_body_font_pt) := by
  unfold DocFactory.copyViolation at hv
  split_ifs at hv with h1 h2 h3
  · exact Or.inl ⟨(Option.some.injEq _ _ ▸ hv).symm, h1⟩
  · exact Or.inr (Or.inl ⟨(Option.some.injEq _ _ ▸ hv).symm, h2⟩)
  · exact Or.inr (Or.inr ⟨(Option.some.injEq _ _ ▸ hv).symm, h3⟩)

/-- Helper: the verdict and failure list of one copy-density case, stated over
the density list directly. -/
theorem copyCase_fields_spec (t : DocFactory.CopyThreshold) (status : Nat)
    (ds : List DocFactory.CopyDensity) :
    (((status == 200) && decide (0 < ds.length) &&
        ((DocFactory.copy_failures t ds).length == 0)) = true ↔
      status = 200 ∧ ds ≠ [] ∧
        ∀ d ∈ ds, DocFactory.copyViolation t d = none) ∧
    (∀ d ∈ ds, ∀ r, DocFactory.copyViolation t d = some r →
      (⟨d, r⟩ : DocFactory.CopyFailure) ∈ DocFactory.copy_failures t ds) ∧
    (∀ f ∈ DocFactory.copy_failures t ds,
      f.density ∈ ds ∧ DocFactory.copyViolation t f.density = some f.reason) := by
  refine ⟨?_, ?_, ?_⟩
  · simp only [Bool.and_eq_true, beq_iff_eq, decide_eq_true_eq,
      List.length_eq_zero, DocFactory.copy_failures, List.filterMap_eq_nil,
      Option.map_eq_none', List.length_pos, and_assoc]
  · intro d hd r hr
    exact List.mem_filterMap.mpr ⟨d, hd, by rw [hr]; rfl⟩
  · intro f hf
    rcases List.mem_filterMap.mp hf with ⟨d, hd, hmap⟩
    rcases Option.map_eq_some'.mp hmap with ⟨r, hr, hrec⟩
    cases hrec
    exact ⟨hd, hr⟩

/-- C5: a copy-density case passes iff status is 200, at least one page
density record exists, and no page violates its thresholds; every violating
page yields an individual failure record naming the violated rule, and
failures arise only from violating pages. -/
theorem c5_copy_density_verdict (name : String)
    (t : DocFactory.CopyThreshold) (resp : DocFactory.QaResponse)
    (store : DocFactory.LayoutStore) (out : DocFactory.CopyCaseResult)
    (h : DocFactory.copy_run_case name t resp store = .ok out) :
    (out.passed = true ↔
      resp.status = 200 ∧ out.densities ≠ [] ∧
        ∀ d ∈ out.densities, DocFactory.copyViolation t d = none) ∧
    (∀ d ∈ out.densities, ∀ r, DocFactory.copyViolation t d = some r →
      (⟨d, r⟩ : DocFactory.CopyFailure) ∈ out.failures ∧
        ((r = "text_chars<" ++ toString t.min_chars ∧
            (d.text_chars : Int) < t.min_chars) ∨
          (r = "text_blocks<" ++ toString t.min_blocks ∧
            (d.text_blocks : Int) < t.min_blocks) ∨
          (r = "body_font_min_pt<" ++ toString t.min_body_font_pt ∧
            d.body_font_min_pt < t.min_body_font_pt))) ∧
    (∀ f ∈ out.failures,
      f.density ∈ out.densities ∧
        DocFactory.copyViolation t f.density = some f.reason) := by
  cases hp : DocFactory.copy_pages resp store with
  | error e =>
      rw [DocFactory.copy_run_case, hp] at h
      cases h
  | ok ps =>
      rw [DocFactory.copy_run_case, hp] at h
      cases h
      have hs := copyCase_fields_spec t resp.status
        (ps.map DocFactory.collect_page_density)
      exact ⟨hs.1, fun d hd r hr => ⟨hs.2.1 d hd r hr,
        copyViolation_names_rule t d r hr⟩, hs.2.2⟩

/-- C5 (witness): a concrete case — an error response with no artifact —
evaluates through `copy_run_case` to a record that fails. -/
theorem c5_copy_density_verdict_witness :
    DocFactory.copy_run_case "onepager_1p" DocFactory.c5Thr DocFactory.c5Resp
        (fun _ => none) = .ok DocFactory.c5Out ∧
      DocFactory.c5Out.passed = false := by
  have h := c5_copy_density_verdict "onepager_1p" DocFactory.c5Thr
    DocFactory.c5Resp (fun _ => none) DocFactory.c5Out rfl
  refine ⟨rfl, ?_⟩
  cases hc : DocFactory.c5Out.passed
  · rfl
  · exact absurd (h.1.mp hc).1 (by decide)

/-- C10: a page with at least one counted text block but no
body/callout/table/flow-marked element gets `body_font_min_pt = 0`, so it
violates every case whose minimum body font threshold is positive. -/
theorem c10_zero_body_font (p : DocFactory.Page)
    (hnb : ∀ e ∈ p.elements.getD [], DocFactory.copyBodyLikeId e = false)
    (hblocks : 1 ≤ (DocFactory.collect_page_density p).text_blocks) :
    (DocFactory.collect_page_density p).body_font_min_pt = 0 ∧
      ∀ t : DocFactory.CopyThreshold, 0 < t.min_body_font_pt →
        (DocFactory.copyViolation t
          (DocFactory.collect_page_density p)).isSome = true := by
  have h0 : (DocFactory.collect_page_density p).body_font_min_pt = 0 := by
    show DocFactory.round2 ((((p.elements.getD []).foldl
      DocFactory.copyDensityStep (0, 0, none)).2.2).getD 0) = 0
    rw [copyFold_noBodyLike _ hnb 0 0]
    show DocFactory.round2 0 = 0
    norm_num [DocFactory.round2, DocFactory.roundHalfEven]
  refine ⟨h0, fun t ht => ?_⟩
  unfold DocFactory.copyViolation
  split_ifs with h1 h2 h3
  · rfl
  · rfl
  · rfl
  · exact absurd (h0 ▸ ht) h3

/-- C10 (witness): the concrete one-element page evaluates to a zero minimum
body font and violates the concrete positive-font threshold set. -/
theorem c10_zero_body_font_witness :
    (DocFactory.collect_page_density DocFactory.c10Page).body_font_min_pt = 0 ∧
      (DocFactory.copyViolation DocFactory.c10Threshold
        (DocFactory.collect_page_density DocFactory.c10Page)).isSome = true := by
  have h := c10_zero_body_font DocFactory.c10Page (by decide) (by decide)
  exact ⟨h.1, h.2 DocFactory.c10Threshold (by decide)⟩

/-- C2: the job-isolation verdict fields are characterized exactly:
`hashes_different` iff both request hashes are present and unequal;
`job_a_files_stable` iff job A's layout and audit digests exist before job
B's export and are identical after it; each `layout_*_hash_matches` iff that
job's persisted layout parses and records `params.requestHash` equal to the
job's own request hash. -/
theorem c2_job_isolation_fields (runA runB : DocFactory.JobRun)
    (fsBefore fsAfter : DocFactory.JobStore) :
    (DocFactory.jobHashesDifferent runA runB = true ↔
      ∃ ha hb, runA.request_hash = some ha ∧ runB.request_hash = some hb ∧
        ha ≠ hb) ∧
    (DocFactory.jobAFilesStable runA fsBefore fsAfter = true ↔
      ∃ h, runA.request_hash = some h ∧
        (DocFactory.sha256_file (fsBefore h).layout).isSome = true ∧
        (DocFactory.sha256_file (fsBefore h).audit).isSome = true ∧
        DocFactory.sha256_file (fsBefore h).layout =
          DocFactory.sha256_file (fsAfter h).layout ∧
        DocFactory.sha256_file (fsBefore h).audit =
          DocFactory.sha256_file (fsAfter h).audit) ∧
    (DocFactory.jobLayoutHashMatches runA fsAfter = true ↔
      ∃ h fd doc, runA.request_hash = some h ∧
        (fsAfter h).layout = some fd ∧ fd.parse = some doc ∧
        doc.params.bind (fun pr => pr.requestHash) = some h) ∧
    (DocFactory.jobLayoutHashMatches runB fsAfter = true ↔
      ∃ h fd doc, runB.request_hash = some h ∧
        (fsAfter h).layout = some fd ∧ fd.parse = some doc ∧
        doc.params.bind (fun pr => pr.requestHash) = some h) := by
  have hmatch : ∀ (r : DocFactory.JobRun),
      DocFactory.jobLayoutHashMatches r fsAfter = true ↔
        ∃ h fd doc, r.request_hash = some h ∧
          (fsAfter h).layout = some fd ∧ fd.parse = some doc ∧
          doc.params.bind (fun pr => pr.requestHash) = some h := by
    intro r
    cases hr : r.request_hash with
    | none => simp [DocFactory.jobLayoutHashMatches, hr]
    | some h =>
        simp only [DocFactory.jobLayoutHashMatches, hr, Option.some.injEq]
        cases hf : (fsAfter h).layout with
        | none => simp [DocFactory.layout_hash_matches, hf]
        | some fd =>
            cases hp : fd.parse with
            | none => simp [DocFactory.layout_hash_matches, hf, hp]
            | some doc =>
                simp only [DocFactory.layout_hash_matches, hf, hp, beq_iff_eq,
                  Option.some.injEq]
                constructor
                · intro hd
                  exact ⟨h, fd, doc, rfl, hf, hp, hd⟩
                · rintro ⟨h', fd', doc', rfl, hfd, hdoc, hd⟩
                  rw [hf] at hfd
                  cases hfd
                  rw [hp] at hdoc
                  cases hdoc
                  exact hd
  refine ⟨?_, ?_, hmatch runA, hmatch runB⟩
  · cases ha : runA.request_hash with
    | none => simp [DocFactory.jobHashesDifferent, ha]
    | some a =>
        cases hb : runB.request_hash with
        | none => simp [DocFactory.jobHashesDifferent, ha, hb]
        | some b => simp [DocFactory.jobHashesDifferent, ha, hb, bne_iff_ne]
  · cases ha : runA.request_hash with
    | none => simp [DocFactory.jobAFilesStable, ha]
    | some a =>
        simp only [DocFactory.jobAFilesStable, ha, Bool.and_eq_true,
          beq_iff_eq, Option.some.injEq]
        constructor
        · rintro ⟨⟨⟨h₁, h₂⟩, h₃⟩, h₄⟩
          exact ⟨a, rfl, h₁, h₂, h₃, h₄⟩
        · rintro ⟨h, rfl, h₁, h₂, h₃, h₄⟩
          exact ⟨⟨⟨h₁, h₂⟩, h₃⟩, h₄⟩

/-- C1 (counterexample): with both responses at status 200 and both carrying
the empty string as request hash, `determinism_passed` is true although the
hashes are not non-empty, so the verdict is not equivalent to the claimed
condition. -/
theorem c1_counterexample :
    ¬ (DocFactory.determinism_passed DocFactory.c1EmptyHashRun
          DocFactory.c1EmptyHashRun = true ↔
        DocFactory.c1ClaimRhs DocFactory.c1EmptyHashRun DocFactory.c1EmptyHashRun) := by
  intro h
  have hp : DocFactory.determinism_passed DocFactory.c1EmptyHashRun
      DocFactory.c1EmptyHashRun = true := by decide
  rcases h.mp hp with ⟨-, -, ⟨w, hw, -, hne⟩, -⟩
  have : w = "" := by
    simpa [DocFactory.c1EmptyHashRun] using hw.symm
  exact hne this

/-- C1 (amended): `determinism_passed` is true iff both responses have status
200 and the two responses carry equal, PRESENT request hashes and equal,
present audit hashes (presence rather than non-emptiness: the code compares
against `None`, so an empty-string hash also satisfies it). -/
theorem c1_determinism_verdict (a b : DocFactory.DetRun) :
    DocFactory.determinism_passed a b = true ↔
      a.status = 200 ∧ b.status = 200 ∧
        (∃ h, a.request_hash = some h ∧ b.request_hash = some h) ∧
        (∃ h, a.audit_hash = some h ∧ b.audit_hash = some h) := by
  simp only [DocFactory.determinism_passed, DocFactory.same_request_hash,
    DocFactory.same_audit_hash, Bool.and_eq_true, beq_iff_eq]
  constructor
  · rintro ⟨⟨⟨ha, hb⟩, hreq⟩, haud⟩
    rcases Option.isSome_iff_exists.mp hreq.1 with ⟨h₁, hh₁⟩
    rcases Option.isSome_iff_exists.mp haud.1 with ⟨h₂, hh₂⟩
    exact ⟨by simpa using ha, by simpa using hb,
      ⟨h₁, hh₁, hreq.2 ▸ hh₁⟩, ⟨h₂, hh₂, haud.2 ▸ hh₂⟩⟩
  · rintro ⟨ha, hb, ⟨h₁, hr₁, hr₂⟩, ⟨h₂, ha₁, ha₂⟩⟩
    refine ⟨⟨⟨by simpa using ha, by simpa using hb⟩, ?_, ?_⟩, ?_, ?_⟩ <;>
      simp [hr₁, hr₂, ha₁, ha₂]


/-- C4: the minimum-content predicate holds iff the page has a title-like and
a body-or-callout-like non-debug text element, each with stripped text length
at least 2, with the identifier markers exactly as the code matches them. -/
theorem c4_min_content_characterization (p : DocFactory.Page) :
    DocFactory.page_has_minimum_content p = true ↔
      ∃ els, p.elements = some els ∧
        (∃ e ∈ els, e.type = some "text" ∧ e.debugOnly = false ∧
          2 ≤ (DocFactory.pyStrip (e.text.getD "")).length ∧
          DocFactory.strContains (DocFactory.pyLower (e.id.getD "")) "title" = true ∧
          DocFactory.strContains (DocFactory.pyLower (e.id.getD "")) "subtitle" = false) ∧
        (∃ e ∈ els, e.type = some "text" ∧ e.debugOnly = false ∧
          2 ≤ (DocFactory.pyStrip (e.text.getD "")).length ∧
          (DocFactory.strContains (DocFactory.pyLower (e.id.getD "")) "body" = true ∨
            DocFactory.strContains (DocFactory.pyLower (e.id.getD "")) "callout" = true ∨
            DocFactory.pyStartsWith (DocFactory.pyStrip (e.text.getD "")) "- " = true)) := by
  cases h : p.elements with
  | none => simp [DocFactory.page_has_minimum_content, h]
  | some els =>
      simp only [DocFactory.page_has_minimum_content, h, Bool.and_eq_true,
        decide_eq_true_eq, Nat.one_le_iff_ne_zero, ← Nat.pos_iff_ne_zero,
        List.countP_pos_iff, Option.some.injEq]
      constructor
      · rintro ⟨⟨e₁, he₁, ht⟩, e₂, he₂, hb⟩
        refine ⟨els, rfl, ⟨e₁, he₁, ?_⟩, ⟨e₂, he₂, ?_⟩⟩
        · simp only [DocFactory.titleLike, DocFactory.countedTextElement,
            Bool.and_eq_true, Bool.not_eq_true', beq_iff_eq,
            decide_eq_true_eq, Bool.not_eq_true] at ht
          exact ⟨ht.1.1.1, ht.1.1.2, ht.1.2, ht.2.1, ht.2.2⟩
        · simp only [DocFactory.bodyCalloutLike, DocFactory.countedTextElement,
            Bool.and_eq_true, Bool.or_eq_true, Bool.not_eq_true', beq_iff_eq,
            decide_eq_true_eq, Bool.not_eq_true] at hb
          tauto
      · rintro ⟨els', hels, ⟨e₁, he₁, ht⟩, e₂, he₂, hb⟩
        cases hels
        refine ⟨⟨e₁, he₁, ?_⟩, ⟨e₂, he₂, ?_⟩⟩
        · simp only [DocFactory.titleLike, DocFactory.countedTextElement,
            Bool.and_eq_true, Bool.not_eq_true', beq_iff_eq,
            decide_eq_true_eq, Bool.not_eq_true]
          exact ⟨⟨⟨ht.1, ht.2.1⟩, ht.2.2.1⟩, ht.2.2.2.1, ht.2.2.2.2⟩
        · simp only [DocFactory.bodyCalloutLike, DocFactory.countedTextElement,
            Bool.and_eq_true, Bool.or_eq_true, Bool.not_eq_true', beq_iff_eq,
            decide_eq_true_eq, Bool.not_eq_true]
          tauto


/-- Helper: `keysOf` on a cons. -/
theorem keysOf_cons (q : String × Rat) (t : List (String × Rat)) :
    DocFactory.keysOf (q :: t) = q.1 :: DocFactory.keysOf t := rfl

/-- Helper: `lookupVal` on a cons. -/
theorem lookupVal_cons (q : String × Rat) (t : List (String × Rat))
    (k : String) :
    DocFactory.lookupVal (q :: t) k =
      if q.1 == k then some q.2 else DocFactory.lookupVal t k := by
  cases h : q.1 == k <;> simp [DocFactory.lookupVal, List.find?, h]

/-- Helper: `upsertMax` on a cons. -/
theorem upsertMax_cons (q : String × Rat) (t : List (String × Rat))
    (k : String) (a : Rat) :
    DocFactory.upsertMax (q :: t) k a =
      if q.1 == k then (q.1, max q.2 a) :: t
      else q :: DocFactory.upsertMax t k a := by
  rcases q with ⟨k', v⟩
  rfl

/-- Helper: keys after one `upsertMax`: unchanged when the key exists, else
the key is appended. -/
theorem keysOf_upsertMax (g : List (String × Rat)) (k : String) (a : Rat) :
    DocFactory.keysOf (DocFactory.upsertMax g k a) =
      if k ∈ DocFactory.keysOf g then DocFactory.keysOf g
      else DocFactory.keysOf g ++ [k] := by
  induction g with
  | nil => simp [DocFactory.upsertMax, DocFactory.keysOf]
  | cons q t ih =>
      rw [upsertMax_cons, keysOf_cons]
      by_cases hk : q.1 = k
      · rw [if_pos (beq_iff_eq.mpr hk), keysOf_cons]
        rw [if_pos (hk ▸ List.mem_cons_self _ _)]
      · rw [if_neg (by simpa using hk), keysOf_cons, ih]
        by_cases hmem : k ∈ DocFactory.keysOf t
        · rw [if_pos hmem, if_pos (List.mem_cons_of_mem _ hmem)]
        · rw [if_neg hmem, if_neg (by
            simp only [List.mem_cons, not_or]
            exact ⟨fun hkq => hk hkq.symm, hmem⟩)]
          simp

/-- Helper: lookup after one `upsertMax`. -/
theorem lookupVal_upsertMax (g : List (String × Rat)) (k : String) (a : Rat)
    (k' : String) :
    DocFactory.lookupVal (DocFactory.upsertMax g k a) k' =
      if k' = k then
        some (match DocFactory.lookupVal g k with
          | none => max 0 a
          | some v => max v a)
      else DocFactory.lookupVal g k' := by
  induction g with
  | nil =>
      by_cases h : k' = k
      · subst h
        simp [DocFactory.upsertMax, DocFactory.lookupVal, List.find?]
      · have hb : (k == k') = false :=
          beq_eq_false_iff_ne.mpr fun hh => h hh.symm
        simp [DocFactory.upsertMax, DocFactory.lookupVal, List.find?, hb, h]
  | cons q t ih =>
      by_cases hqk : q.1 = k
      · by_cases h : k' = k
        · subst h
          simp [upsertMax_cons, lookupVal_cons, hqk, ih]
        · have hq' : q.1 ≠ k' := by
            rw [hqk]
            exact fun hh => h hh.symm
          have h2 : k ≠ k' := fun hh => h hh.symm
          simp [upsertMax_cons, lookupVal_cons, hqk, h, hq', h2, ih]
      · by_cases h : k' = k
        · subst h
          simp [upsertMax_cons, lookupVal_cons, hqk, ih, Ne.symm hqk]
        · by_cases hq' : q.1 = k'
          · simp [upsertMax_cons, lookupVal_cons, hqk, h, hq', ih]
          · simp [upsertMax_cons, lookupVal_cons, hqk, h, hq', ih]

/-- Helper: `combineMax` started from a known value folds to the running
maximum over the remaining areas. -/
theorem combineMax_some (L : List (String × Rat)) :
    ∀ v : Rat, DocFactory.combineMax (some v) L =
      some ((L.map (fun q => q.2)).foldl max v) := by
  induction L with
  | nil => intro v; rfl
  | cons q t ih => intro v; simpa [DocFactory.combineMax] using ih (max v q.2)

/-- Helper: lookup through the whole group fold is the running maximum of the
pairs with that key. -/
theorem lookupVal_applyGroups (L : List (String × Rat)) :
    ∀ (g : List (String × Rat)) (k : String),
      DocFactory.lookupVal (DocFactory.applyGroups g L) k =
        DocFactory.combineMax (DocFactory.lookupVal g k)
          (L.filter (fun q => q.1 == k)) := by
  induction L with
  | nil => intro g k; rfl
  | cons q t ih =>
      intro g k
      have hstep : DocFactory.applyGroups g (q :: t) =
          DocFactory.applyGroups (DocFactory.upsertMax g q.1 q.2) t := rfl
      rw [hstep, ih, lookupVal_upsertMax]
      by_cases h : k = q.1
      · rw [if_pos h, List.filter_cons,
          if_pos (by simpa using beq_iff_eq.mpr h.symm)]
        subst h
        cases hg : DocFactory.lookupVal g q.1 <;>
          simp [DocFactory.combineMax, hg]
      · rw [if_neg h, List.filter_cons,
          if_neg (by simpa using fun hh : q.1 = k => h hh.symm)]

/-- Helper: the keys produced by the whole group fold, in insertion order. -/
theorem keysOf_applyGroups (L : List (String × Rat)) :
    ∀ g : List (String × Rat),
      DocFactory.keysOf (DocFactory.applyGroups g L) =
        L.foldl (fun ks q => if q.1 ∈ ks then ks else ks ++ [q.1])
          (DocFactory.keysOf g) := by
  induction L with
  | nil => intro g; rfl
  | cons q t ih =>
      intro g
      have hstep : DocFactory.applyGroups g (q :: t) =
          DocFactory.applyGroups (DocFactory.upsertMax g q.1 q.2) t := rfl
      rw [hstep, ih, List.foldl_cons, keysOf_upsertMax]

/-- Helper: the first-occurrence key-insertion fold keeps the list nodup. -/
theorem insertFold_nodup (L : List String) :
    ∀ ks : List String, ks.Nodup →
      (L.foldl (fun ks k => if k ∈ ks then ks else ks ++ [k]) ks).Nodup := by
  induction L with
  | nil => intro ks h; exact h
  | cons k t ih =>
      intro ks h
      rw [List.foldl_cons]
      by_cases hmem : k ∈ ks
      · rw [if_pos hmem]; exact ih ks h
      · rw [if_neg hmem]
        exact ih _ (by simp [List.nodup_append, h, hmem])

/-- Helper: membership in the first-occurrence key-insertion fold. -/
theorem insertFold_mem (L : List String) :
    ∀ (ks : List String) (k : String),
      (k ∈ L.foldl (fun ks k => if k ∈ ks then ks else ks ++ [k]) ks ↔
        k ∈ ks ∨ k ∈ L) := by
  induction L with
  | nil => intro ks k; simp
  | cons x t ih =>
      intro ks k
      rw [List.foldl_cons]
      by_cases hmem : x ∈ ks
      · rw [if_pos hmem, ih]
        constructor
        · rintro (h | h)
          · exact Or.inl h
          · exact Or.inr (List.mem_cons_of_mem _ h)
        · rintro (h | h)
          · exact Or.inl h
          · rcases List.mem_cons.mp h with rfl | h
            · exact Or.inl hmem
            · exact Or.inr h
      · rw [if_neg hmem, ih]
        simp only [List.mem_append, List.mem_singleton, List.mem_cons]
        tauto

/-- Helper: the sum of an association list with nodup keys equals the sum of
the lookups over its key list. -/
theorem sumVals_eq_sum_over_keys (g : List (String × Rat))
    (h : (DocFactory.keysOf g).Nodup) :
    DocFactory.sumVals g =
      ((DocFactory.keysOf g).map
        (fun k => (DocFactory.lookupVal g k).getD 0)).sum := by
  induction g with
  | nil => rfl
  | cons q t ih =>
      rw [keysOf_cons] at h ⊢
      rcases List.nodup_cons.mp h with ⟨hq, ht⟩
      have hhead : DocFactory.lookupVal (q :: t) q.1 = some q.2 := by
        rw [lookupVal_cons, if_pos (beq_iff_eq.mpr rfl)]
      have htail : ∀ k ∈ DocFactory.keysOf t,
          DocFactory.lookupVal (q :: t) k = DocFactory.lookupVal t k := by
        intro k hk
        rw [lookupVal_cons, if_neg (by
          simp only [beq_iff_eq]
          exact fun hh => hq (hh ▸ hk))]
      rw [List.map_cons, hhead]
      have : (DocFactory.keysOf t).map
            (fun k => (DocFactory.lookupVal (q :: t) k).getD 0) =
          (DocFactory.keysOf t).map
            (fun k => (DocFactory.lookupVal t k).getD 0) :=
        List.map_congr_left (fun k hk => by rw [htail k hk])
      rw [this, List.sum_cons, ← ih ht]
      rfl

/-- Helper: the dict-style group fold sums to the sum of per-key maxima. -/
theorem groups_fold_spec (L : List (String × Rat)) :
    DocFactory.sumVals (DocFactory.applyGroups [] L) =
      ((DocFactory.firstKeys (L.map (fun q => q.1))).map
        (fun k => DocFactory.groupMax L k)).sum := by
  have hnd : (DocFactory.keysOf (DocFactory.applyGroups [] L)).Nodup := by
    rw [keysOf_applyGroups,
      show DocFactory.keysOf ([] : List (String × Rat)) = [] from rfl,
      ← List.foldl_map (fun q : String × Rat => q.1)
        (fun ks k => if k ∈ ks then ks else ks ++ [k])]
    exact insertFold_nodup _ _ List.nodup_nil
  have hkeys : DocFactory.keysOf (DocFactory.applyGroups [] L) =
      DocFactory.firstKeys (L.map (fun q => q.1)) := by
    rw [keysOf_applyGroups, DocFactory.firstKeys, List.foldl_map]
    rfl
  rw [sumVals_eq_sum_over_keys _ hnd, hkeys]
  apply congrArg List.sum
  apply List.map_congr_left
  intro k hk
  have hkL : k ∈ L.map (fun q => q.1) := by
    rcases (insertFold_mem (L.map (fun q => q.1)) [] k).mp
      (by rw [DocFactory.firstKeys] at hk; exact hk) with h | h
    · cases h
    · exact h
  rw [lookupVal_applyGroups L [] k]
  rcases List.mem_map.mp hkL with ⟨q, hq, hq1⟩
  have hfil : q ∈ L.filter (fun r => r.1 == k) :=
    List.mem_filter.mpr ⟨hq, by simp [hq1]⟩
  cases hM : L.filter (fun r => r.1 == k) with
  | nil => rw [hM] at hfil; cases hfil
  | cons m ms =>
      rw [show DocFactory.lookupVal [] k = none from rfl,
        show DocFactory.combineMax none (m :: ms) =
          DocFactory.combineMax (some (max 0 m.2)) ms from rfl,
        combineMax_some, Option.getD_some, DocFactory.groupMax, hM]
      rfl

/-- Helper: the groups component of one `page_density` loop step. -/
theorem densityStep_snd (c : Nat) (g : List (String × Rat))
    (ie : Nat × DocFactory.Element) :
    (DocFactory.densityStep (c, g) ie).2 =
      (match DocFactory.qualifier ie with
        | none => g
        | some q => DocFactory.upsertMax g q.1 q.2) := by
  by_cases h1 : ie.2.debugOnly = true
  · simp [DocFactory.densityStep, DocFactory.qualifier, h1]
  · by_cases h2 : DocFactory.roleExcluded (ie.2.role.getD "") = true
    · simp [DocFactory.densityStep, DocFactory.qualifier, h1, h2]
    · by_cases h3 : DocFactory.element_area ie.2 ≤ 0
      · simp [DocFactory.densityStep, DocFactory.qualifier, h1, h2, h3]
      · simp [DocFactory.densityStep, DocFactory.qualifier, h1, h2, h3]

/-- Helper: the whole `page_density` loop builds the same groups as folding
the qualifying (key, area) pairs. -/
theorem densityStep_groups (l : List (Nat × DocFactory.Element)) :
    ∀ (c : Nat) (g : List (String × Rat)),
      (l.foldl DocFactory.densityStep (c, g)).2 =
        DocFactory.applyGroups g (l.filterMap DocFactory.qualifier) := by
  induction l with
  | nil => intro c g; rfl
  | cons ie t ih =>
      intro c g
      rw [List.foldl_cons, List.filterMap_cons]
      have hstep := ih (DocFactory.densityStep (c, g) ie).1
        (DocFactory.densityStep (c, g) ie).2
      rw [Prod.mk.eta] at hstep
      rw [hstep, densityStep_snd]
      cases hq : DocFactory.qualifier ie with
      | none => rfl
      | some q => rfl

/-- C7: the coverage computed by `page_density` equals the sum over groups
(keyed by collision group, else element id, else a positional fallback) of
the maximum element area in the group, divided by the page area; the reported
`coverage_ratio` is that value rounded to four decimals; line elements
contribute zero area. -/
theorem c7_coverage_formula (p : DocFactory.Page) :
    DocFactory.page_coverage p = DocFactory.coverageSpec p ∧
      (DocFactory.page_density p).coverage_ratio =
        DocFactory.round4 (DocFactory.page_coverage p) ∧
      ∀ e : DocFactory.Element, e.type = some "line" →
        DocFactory.element_area e = 0 := by
  refine ⟨?_, rfl, ?_⟩
  · rw [DocFactory.page_coverage, DocFactory.coverageSpec]
    congr 1
    rw [DocFactory.density_groups, densityStep_groups]
    exact groups_fold_spec (DocFactory.qualifyingAreas p)
  · intro e he
    simp [DocFactory.element_area, he]

/-- C9 (code evaluated at the failing input): with the latest job's
`layout.json` present but unparsable, `layout_density_proof.main` raises
(`json.loads` at line 169 is unguarded), while the guarded resolver
`load_layout` returns the `Absent` sentinel for the very same artifact. -/
theorem c9_unparsable_layout_crash :
    DocFactory.layout_density_main 8 (some "deadbeef") DocFactory.c9Store =
        .error () ∧
      DocFactory.load_layout DocFactory.c9Store "deadbeef" = none :=
  ⟨rfl, rfl⟩

/-- C6: the layout-density verdict is true iff at least 4 page density
records exist, no page carries a service-reported content-density issue, and
every page satisfies its role/template thresholds; and the section-divider
and text-only thresholds are strictly higher than the general ones. -/
theorem c6_layout_density_verdict (pages : List DocFactory.Page) :
    (DocFactory.ld_passed pages = true ↔
      4 ≤ (DocFactory.ld_densities pages).length ∧
        (∀ p ∈ pages, DocFactory.hasContentDensityIssue p = false) ∧
        (∀ p ∈ pages,
          (DocFactory.validate_page (DocFactory.page_density p)).1 = true)) ∧
    (DocFactory.generalMinChars < DocFactory.dividerMinChars ∧
      DocFactory.generalMinCoverage < DocFactory.dividerMinCoverage ∧
      DocFactory.generalMinGroups < DocFactory.dividerMinGroups) ∧
    (DocFactory.generalMinChars < DocFactory.textOnlyMinChars ∧
      DocFactory.generalMinCoverage < DocFactory.textOnlyMinCoverage ∧
      DocFactory.generalMinGroups < DocFactory.textOnlyMinGroups) := by
  refine ⟨?_, ⟨by norm_num [DocFactory.generalMinChars,
      DocFactory.dividerMinChars], by norm_num [DocFactory.generalMinCoverage,
      DocFactory.dividerMinCoverage], by norm_num [DocFactory.generalMinGroups,
      DocFactory.dividerMinGroups]⟩,
    ⟨by norm_num [DocFactory.generalMinChars, DocFactory.textOnlyMinChars],
      by norm_num [DocFactory.generalMinCoverage,
        DocFactory.textOnlyMinCoverage],
      by norm_num [DocFactory.generalMinGroups,
        DocFactory.textOnlyMinGroups]⟩⟩
  have hfail : DocFactory.ld_failures pages = [] ↔
      ∀ p ∈ pages,
        (DocFactory.validate_page (DocFactory.page_density p)).1 = true := by
    rw [DocFactory.ld_failures, List.filterMap_eq_nil_iff]
    constructor
    · intro h p hp
      cases hb : (DocFactory.validate_page (DocFactory.page_density p)).1
      · have := h p hp
        simp only [hb] at this
        cases this
      · rfl
    · intro h p hp
      simp [h p hp]
  have hiss : DocFactory.ld_density_issues pages = [] ↔
      ∀ p ∈ pages, DocFactory.hasContentDensityIssue p = false := by
    rw [DocFactory.ld_density_issues, List.map_eq_nil_iff,
      List.filter_eq_nil_iff]
    simp
  rw [DocFactory.ld_passed]
  simp only [Bool.and_eq_true, beq_iff_eq, decide_eq_true_eq,
    List.length_eq_zero]
  constructor
  · rintro ⟨⟨h1, h2⟩, h3⟩
    exact ⟨h3, hiss.mp h2, hfail.mp h1⟩
  · rintro ⟨h3, h2, h1⟩
    exact ⟨⟨hfail.mpr h1, hiss.mpr h2⟩, h3⟩

/-- Helper: no forbidden hit is found iff no scanned text matches any
forbidden pattern. -/
theorem find_hits_nil_iff (items : List DocFactory.TextItem) :
    DocFactory.find_forbidden_hits items = [] ↔
      ∀ item ∈ items, ∀ w ∈ DocFactory.FORBIDDEN_PATTERNS,
        DocFactory.searchWordCI w item.text = false := by
  rw [DocFactory.find_forbidden_hits, List.flatten_eq_nil_iff]
  constructor
  · intro h item hit w hw
    have hmem := h _ (List.mem_map_of_mem _ hit)
    rw [List.map_eq_nil_iff, List.filter_eq_nil_iff] at hmem
    simpa using hmem w hw
  · intro h l hl
    rcases List.mem_map.mp hl with ⟨item, hit, rfl⟩
    rw [List.map_eq_nil_iff, List.filter_eq_nil_iff]
    intro w hw
    simpa using h item hit w hw

/-- C8 (counterexample): a 422 rejection whose issue list carries the
leakage message is a client error, yet the gate verdict is false — the code
accepts the explicit-rejection arm only at status exactly 400, not for every
client error. -/
theorem c8_counterexample :
    (400 ≤ DocFactory.c8Err.status ∧ DocFactory.c8Err.status < 500) ∧
      ¬ (DocFactory.nit_passed DocFactory.c8Err (fun _ => none) = true ↔
          DocFactory.has_internal_term_gate_issue DocFactory.c8Err = true) := by
  refine ⟨by decide, fun h => ?_⟩
  have hp := h.mpr (by decide)
  exact absurd hp (by decide)

/-- C8 (amended): at status 200 the gate passes iff no scanned non-debug
rendered text matches any forbidden pattern and a request hash is present;
at status exactly 400 (not any client error) it passes iff the issue list
carries the leakage message; at every other status it fails. -/
theorem c8_internal_terms_gate (resp : DocFactory.QaResponse)
    (store : DocFactory.LayoutStore) :
    (resp.status = 200 →
      (DocFactory.nit_passed resp store = true ↔
        (∀ item ∈ DocFactory.nit_texts resp store,
          ∀ w ∈ DocFactory.FORBIDDEN_PATTERNS,
            DocFactory.searchWordCI w item.text = false) ∧
        (DocFactory.request_hash_of resp).isSome = true)) ∧
    (resp.status = 400 →
      (DocFactory.nit_passed resp store = true ↔
        DocFactory.has_internal_term_gate_issue resp = true)) ∧
    (resp.status ≠ 200 → resp.status ≠ 400 →
      DocFactory.nit_passed resp store = false) := by
  refine ⟨?_, ?_, ?_⟩
  · intro h200
    rw [DocFactory.nit_passed, if_pos (beq_iff_eq.mpr h200),
      Bool.and_eq_true]
    constructor
    · rintro ⟨h1, h2⟩
      exact ⟨(find_hits_nil_iff _).mp
        (by simpa [List.length_eq_zero] using h1), h2⟩
    · rintro ⟨h1, h2⟩
      exact ⟨by simpa [List.length_eq_zero] using
        (find_hits_nil_iff _).mpr h1, h2⟩
  · intro h400
    rw [DocFactory.nit_passed, if_neg (by simp [h400]),
      if_pos (beq_iff_eq.mpr h400)]
  · intro hn200 hn400
    rw [DocFactory.nit_passed, if_neg (by simp [hn200]),
      if_neg (by simp [hn400])]

/-- C8 (witness): the amended characterization instantiated at a concrete
success response with an empty artifact store. -/
theorem c8_internal_terms_gate_witness :
    DocFactory.c8Ok.status = 200 ∧
      (DocFactory.nit_passed DocFactory.c8Ok (fun _ => none) = true ↔
        (∀ item ∈ DocFactory.nit_texts DocFactory.c8Ok (fun _ => none),
          ∀ w ∈ DocFactory.FORBIDDEN_PATTERNS,
            DocFactory.searchWordCI w item.text = false) ∧
        (DocFactory.request_hash_of DocFactory.c8Ok).isSome = true) :=
  ⟨rfl, (c8_internal_terms_gate DocFactory.c8Ok (fun _ => none)).1 rfl⟩

/-- C3 (counterexample): the export-gate entry point, at a concrete pair of
probe results, prints a report with no top-level `passed` field at all and
exits 0 — so not every verifier entry point reports `passed` and exits by
it. -/
theorem c3_counterexample :
    ((DocFactory.export_gate_main DocFactory.c3EgNormal
        DocFactory.c3EgBlocked).1.find? (fun f => f.1 == "passed")) = none ∧
      (DocFactory.export_gate_main DocFactory.c3EgNormal
        DocFactory.c3EgBlocked).2 = 0 :=
  ⟨rfl, rfl⟩

/-- C3 (amended): the five aggregate gate verifiers (content completeness,
copy density, layout density, internal-term leakage, domain-copy) print one
JSON report whose top level carries a boolean `passed` and exit 0 when it is
true and 1 otherwise (for the two that can crash, on every run that
completes); the six probe entry points (determinism, job isolation, export
gate, reference gate, reference index, runtime gate) print reports without a
top-level `passed` field and always exit 0. -/
theorem c3_cli_reports :
    (∀ o1 o2 o3 : DocFactory.QaResponse × DocFactory.LayoutStore,
      ∃ b, DocFactory.getBoolField
          (DocFactory.content_completeness_main o1 o2 o3).1 "passed" =
            some b ∧
        (DocFactory.content_completeness_main o1 o2 o3).2 =
          (if b then 0 else 1)) ∧
    (∀ (o1 o2 : DocFactory.QaResponse × DocFactory.LayoutStore) out,
      DocFactory.copy_density_main o1 o2 = .ok out →
      ∃ b, DocFactory.getBoolField out.1 "passed" = some b ∧
        out.2 = (if b then 0 else 1)) ∧
    (∀ (ic : Nat) (latest : Option String) (store : DocFactory.LayoutStore)
        out, DocFactory.layout_density_main ic latest store = .ok out →
      ∃ b, DocFactory.getBoolField out.1 "passed" = some b ∧
        out.2 = (if b then 0 else 1)) ∧
    (∀ (resp : DocFactory.QaResponse) (store : DocFactory.LayoutStore),
      ∃ b, DocFactory.getBoolField
          (DocFactory.no_internal_terms_main resp store).1 "passed" =
            some b ∧
        (DocFactory.no_internal_terms_main resp store).2 =
          (if b then 0 else 1)) ∧
    (∀ files : List (String × String),
      ∃ b, DocFactory.getBoolField
          (DocFactory.no_domain_copy_main files).1 "passed" = some b ∧
        (DocFactory.no_domain_copy_main files).2 = (if b then 0 else 1)) ∧
    (∀ wa wb : DocFactory.HttpOutcome,
      DocFactory.getBoolField (DocFactory.determinism_main wa wb).1
          "passed" = none ∧
        (DocFactory.determinism_main wa wb).2 = 0) ∧
    (∀ (wa wb : DocFactory.HttpOutcome) (fb fa : DocFactory.JobStore),
      DocFactory.getBoolField
          (DocFactory.job_isolation_main wa wb fb fa).1 "passed" = none ∧
        (DocFactory.job_isolation_main wa wb fb fa).2 = 0) ∧
    (∀ n bl : DocFactory.EGResult,
      DocFactory.getBoolField (DocFactory.export_gate_main n bl).1
          "passed" = none ∧
        (DocFactory.export_gate_main n bl).2 = 0) ∧
    (∀ wbl wal : DocFactory.HttpOutcome,
      DocFactory.getBoolField (DocFactory.reference_gate_main wbl wal).1
          "passed" = none ∧
        (DocFactory.reference_gate_main wbl wal).2 = 0) ∧
    (∀ (ii : Option DocFactory.RefIndex) (t : Option String)
        (ws wr : DocFactory.HttpOutcome) (ri : Option DocFactory.RefIndex),
      DocFactory.getBoolField
          (DocFactory.reference_index_main ii t ws wr ri).1 "passed" = none ∧
        (DocFactory.reference_index_main ii t ws wr ri).2 = 0) ∧
    (∀ r d t : DocFactory.InspectResult,
      DocFactory.getBoolField (DocFactory.runtime_gate_main r d t).1
          "passed" = none ∧
        (DocFactory.runtime_gate_main r d t).2 = 0) := by
  refine ⟨fun o1 o2 o3 => ⟨_, rfl, rfl⟩, ?_, ?_, fun resp store => ⟨_, rfl, rfl⟩,
    ?_, fun wa wb => ⟨rfl, rfl⟩, fun wa wb fb fa => ⟨rfl, rfl⟩,
    fun n bl => ⟨rfl, rfl⟩, fun wbl wal => ⟨rfl, rfl⟩,
    fun ii t ws wr ri => ⟨rfl, rfl⟩, fun r d t => ⟨rfl, rfl⟩⟩
  · intro o1 o2 out h
    cases h1 : DocFactory.copy_run_case "poster_set_3p"
        DocFactory.copyThrPosterSet o1.1 o1.2 with
    | error e =>
        simp only [DocFactory.copy_density_main, h1] at h
        exact Except.noConfusion h
    | ok r1 =>
        cases h2 : DocFactory.copy_run_case "onepager_1p"
            DocFactory.copyThrOnepager o2.1 o2.2 with
        | error e =>
            simp only [DocFactory.copy_density_main, h1, h2] at h
            exact Except.noConfusion h
        | ok r2 =>
            simp only [DocFactory.copy_density_main, h1, h2] at h
            cases h
            exact ⟨_, rfl, rfl⟩
  · intro ic latest store out h
    cases latest with
    | none =>
        simp only [DocFactory.layout_density_main] at h
        cases h
        exact ⟨false, rfl, rfl⟩
    | some hh =>
        cases hs : store hh with
        | none =>
            simp only [DocFactory.layout_density_main, hs] at h
            cases h
            exact ⟨false, rfl, rfl⟩
        | some fd =>
            cases hp : fd.parse with
            | none =>
                simp only [DocFactory.layout_density_main, hs, hp] at h
                exact Except.noConfusion h
            | some doc =>
                simp only [DocFactory.layout_density_main, hs, hp] at h
                cases h
                exact ⟨_, rfl, rfl⟩
  · intro files
    refine ⟨((files.map (fun f => DocFactory.scan_file f.1 f.2)).flatten.length
      == 0), rfl, ?_⟩
    show (if (files.map (fun f =>
        DocFactory.scan_file f.1 f.2)).flatten.isEmpty then 0 else 1) = _
    cases hF : (files.map (fun f => DocFactory.scan_file f.1 f.2)).flatten with
    | nil => rfl
    | cons a t => rfl

/-- C3 (witness): the amended statement instantiated — layout_density's main
with no latest job produces the concrete failure report, whose `passed`
boolean matches its exit status. -/
theorem c3_cli_reports_witness :
    DocFactory.layout_density_main 0 none (fun _ => none) =
        .ok DocFactory.c3LdOut ∧
      ∃ b, DocFactory.getBoolField DocFactory.c3LdOut.1 "passed" = some b ∧
        DocFactory.c3LdOut.2 = (if b then 0 else 1) :=
  ⟨rfl, c3_cli_reports.2.2.1 0 none (fun _ => none) DocFactory.c3LdOut rfl⟩
